import Mathlib

/-!
Verification development for the yoko-tool power-meter control library.

The definitions below are a shallow embedding, translated from the Python
sources:

* `src/yokolibs/_yokobase.py`  — the generic command engine (`YokoBase`),
  its command tables, tweaks, argument verification and device status
  checking;
* `src/yokolibs/_wt310.py`     — the WT310 model adapter built on it;
* `src/yokolibs/_wt210.py`     — the WT210 model adapter (emulated
  integration-state query);
* `src/yokotools/WT310.py`     — the older WT310 module with the
  integration state-machine checks;
* `src/yokolibs/Transport.py`  — transport auto-selection.

Python's exception flow is modelled with `Except`; the mutable engine
object is modelled by explicit state passing (`EngSt` inside `S`); the
transport is modelled as an oracle (`Dev`) that answers the n-th transport
primitive call, and every transport primitive invocation is logged into a
trace so that "no I/O was performed" is expressible.  CPython
floating-point formatting (`str(float(x))`, `"%g" % float(x)`,
`float(a) * b`, `float(x) >= 9.9e37`, `time.time()`) is abstracted by the
`FloatOps` parameter: none of the verified claims depends on the numeric
values these produce, only on where and how often they are applied.
-/

/-- A value travelling through the engine: Python strings or lists of
strings (the only shapes the engine produces). -/
inductive Val where
  | vstr (s : String)
  | vlist (xs : List String)
deriving DecidableEq, Repr

/-- A command argument after `command()`'s coercion to string form:
`None`, a string, or a list of strings. -/
inductive Arg where
  | anone
  | astr (s : String)
  | alist (xs : List String)
deriving DecidableEq, Repr

/-- The exception taxonomy.  `err`/`badArg`/`badResp` are
`yokolibs._exceptions.Error` and its subclasses; `transport` is the
separate `yokolibs.Exceptions.TransportError` family raised by the
transport layer (NOT a subclass of `_exceptions.Error`, so an
`except Error:` clause does not catch it); `pyexc` stands for an
unhandled Python exception (ValueError, TypeError, IndexError, KeyError). -/
inductive PyErr where
  | err (msg : String)
  | badArg (cmd : Option String) (arg : Option String) (msg : String)
  | badResp (msg : String)
  | transport (msg : String)
  | pyexc (msg : String)
deriving DecidableEq, Repr


/-- Decidable equality for `Except` results (needed so closed runs can be
settled by `decide`). -/
instance {ε α : Type} [DecidableEq ε] [DecidableEq α] : DecidableEq (Except ε α) := fun x y =>
  match x, y with
  | Except.ok a, Except.ok b =>
    if h : a = b then Decidable.isTrue (by rw [h]) else Decidable.isFalse (by simp [h])
  | Except.error e, Except.error f =>
    if h : e = f then Decidable.isTrue (by rw [h]) else Decidable.isFalse (by simp [h])
  | Except.ok _, Except.error _ => Decidable.isFalse (by simp)
  | Except.error _, Except.ok _ => Decidable.isFalse (by simp)

/-- Result of one transport primitive call, chosen by the device oracle:
a successful line (for reads; ignored for writes) or a transport-level
failure carrying the transport error message. -/
inductive TRes where
  | ok (s : String)
  | fail (msg : String)
deriving DecidableEq, Repr

/-- The device/transport oracle: the outcome of the n-th transport
primitive call (each `writeline` and each `readline` consumes one slot). -/
def Dev : Type := Nat → TRes

/-- Trace events: an attempted line write (with the raw wire string) or an
attempted line read. -/
inductive Ev where
  | wr (raw : String)
  | rd
deriving DecidableEq, Repr

/-- The adapter-visible mutable state of a `YokoBase` object (beyond the
command tables, which are built once at construction and never mutated
afterwards — they are plain Lean definitions here).  Fields mirror
`YokoBase.__init__` / `WT210.__init__`:
`_items_to_read` (initially `[]`), `_item_indexes` (initially `None`),
`_interval` (initially `None`; the float is kept as the response string,
arithmetic on it being abstracted by `FloatOps`), and the WT210-specific
`_wt210_items_to_read` / `_wt210_item_indexes` (initially `None`). -/
structure EngSt where
  itemsToRead : List String := []
  itemIndexes : Option (List (String × Nat)) := none
  interval : Option String := none
  wt210ItemsToRead : Option (List String) := none
  wt210ItemIndexes : Option (List (String × Nat)) := none
deriving DecidableEq, Repr

/-- Full interpreter state: oracle position, a clock counter for
`time.time()` calls, the I/O trace, and the engine state. -/
structure S where
  pos : Nat := 0
  tick : Nat := 0
  trace : List Ev := []
  eng : EngSt := {}
deriving DecidableEq, Repr

/-- The engine monad: state passing plus Python exceptions.  On an
exception the state reached so far is kept (Python objects keep their
mutations when an exception propagates). -/
def M (α : Type) : Type := Dev → S → Except PyErr α × S

namespace M

def pure' (a : α) : M α := fun _ s => (Except.ok a, s)

def bind' (x : M α) (f : α → M β) : M β := fun dev s =>
  match x dev s with
  | (Except.ok a, s1) => f a dev s1
  | (Except.error e, s1) => (Except.error e, s1)

instance : Monad M where
  pure := pure'
  bind := bind'

/-- Raise a Python exception. -/
def throwE (e : PyErr) : M α := fun _ s => (Except.error e, s)

/-- Lift a pure `Except` computation. -/
def liftE (x : Except PyErr α) : M α := fun _ s => (x, s)

/-- Read the engine state. -/
def readEng : M EngSt := fun _ s => (Except.ok s.eng, s)

/-- Replace the engine state with the result of `f`. -/
def modEng (f : EngSt → EngSt) : M Unit := fun _ s =>
  (Except.ok (), { s with eng := f s.eng })

/-- One `time.time()` call: consumes a clock tick. -/
def takeTick : M Nat := fun _ s => (Except.ok s.tick, { s with tick := s.tick + 1 })

/-- `transport.writeline(raw)`: consumes one oracle slot, logs the write,
fails with a `TransportError` when the oracle says so
(`Transport._USBTMC.writeline` / `_Serial.writeline`). -/
def writelineRaw (raw : String) : M Unit := fun dev s =>
  let s' : S := { s with pos := s.pos + 1, trace := s.trace ++ [Ev.wr raw] }
  match dev s.pos with
  | TRes.ok _ => (Except.ok (), s')
  | TRes.fail m => (Except.error (PyErr.transport m), s')

/-- `transport.readline()`: consumes one oracle slot, logs the read. -/
def readlineRaw : M String := fun dev s =>
  let s' : S := { s with pos := s.pos + 1, trace := s.trace ++ [Ev.rd] }
  match dev s.pos with
  | TRes.ok r => (Except.ok r, s')
  | TRes.fail m => (Except.error (PyErr.transport m), s')

/-- `except Transport.Error as err: ...` — catches only the transport
error family, letting `h` rebuild the exception from the message. -/
def catchTransport (x : M α) (h : String → M α) : M α := fun dev s =>
  match x dev s with
  | (Except.error (PyErr.transport m), s1) => h m dev s1
  | r => r

/-- `except Error: ...` — catches `_exceptions.Error` and its subclasses
(`err`, `badArg`, `badResp`) but NOT the transport errors (a different
class hierarchy) nor unhandled Python exceptions. -/
def catchYoko (x : M α) (fallback : M α) : M α := fun dev s =>
  match x dev s with
  | (Except.error (PyErr.err _), s1) => fallback dev s1
  | (Except.error (PyErr.badArg _ _ _), s1) => fallback dev s1
  | (Except.error (PyErr.badResp _), s1) => fallback dev s1
  | r => r

end M

export M (throwE liftE readEng modEng takeTick writelineRaw readlineRaw
  catchTransport catchYoko)

/-- Abstraction of CPython float behaviour used by the tweaks and the
virtual-item computation.  The claims verified below never depend on the
values these functions return, only on where they are applied, so they
are carried as an uninterpreted parameter.  Intended meanings:
`floatStr s = str(float(s))`; `gFormat s = "%g" % float(s)`;
`mulIntervalStr p i = str(float(p) * float(i))`;
`overrange s = (float(s) >= 9.9e37)`; `timeStr n` — the string form of
the n-th `time.time()` reading. -/
structure FloatOps where
  floatStr : String → String
  gFormat : String → String
  mulIntervalStr : String → String → String
  overrange : String → Bool
  timeStr : Nat → String

/-- A concrete dummy instantiation of `FloatOps`, used only to
instantiate universally quantified theorems in witnesses. -/
def fops0 : FloatOps where
  floatStr := fun s => s
  gFormat := fun s => s
  mulIntervalStr := fun p _ => p
  overrange := fun _ => false
  timeStr := fun _ => "0"

/-- First-match association-list lookup (Python dict read). -/
def lookupA (l : List (String × α)) (k : String) : Option α :=
  match l with
  | [] => none
  | (k', v) :: rest => if k' = k then some v else lookupA rest k

/-- Last-write-wins association lookup (Python dict built by successive
assignments: the last assignment to a key is its value). -/
def lookupLast (l : List (String × α)) (k : String) : Option α :=
  match l with
  | [] => none
  | (k', v) :: rest =>
    match lookupLast rest k with
    | some r => some r
    | none => if k' = k then some v else none


/-! ### Kernel-reducible string operations

The Lean core implementations of `String.splitOn`, `String.startsWith`,
`String.replace`, `String.toLower` and `String.toInt?` do not reduce
under the kernel's definitional unfolding, so the embedding uses the
following character-list based equivalents (for the ASCII data this
program handles they coincide with the Python operations they model). -/

/-- `s.startswith(p)`. -/
def strStartsWith (s p : String) : Bool := p.data.isPrefixOf s.data

/-- `s.endswith(p)`. -/
def strEndsWith (s p : String) : Bool := p.data.reverse.isPrefixOf s.data.reverse

/-- ASCII lower-casing of one character. -/
def charLower (c : Char) : Char :=
  if 'A' ≤ c ∧ c ≤ 'Z' then Char.ofNat (c.toNat + 32) else c

/-- `s.lower()` (ASCII). -/
def strToLower (s : String) : String := String.mk (s.data.map charLower)

/-- The splitting loop of `s.split(sep)`: `fuel` only bounds the
number of steps (one character is consumed per step, so
`l.length + 1` suffices) and exists to keep the recursion structural. -/
def splitGo (sep : List Char) : Nat → List Char → List Char → List (List Char)
  | 0, _, acc => [acc.reverse]
  | _ + 1, [], acc => [acc.reverse]
  | fuel + 1, c :: rest, acc =>
    if !sep.isEmpty && sep.isPrefixOf (c :: rest) then
      acc.reverse :: splitGo sep fuel (List.drop sep.length (c :: rest)) []
    else
      splitGo sep fuel rest (c :: acc)

/-- `s.split(sep)` for a non-empty separator. -/
def strSplitOn (s sep : String) : List String :=
  (splitGo sep.data (s.data.length + 1) s.data []).map String.mk

/-- The replacement loop of `s.replace(pat, rep)` (same fuel scheme). -/
def replaceGo (pat rep : List Char) : Nat → List Char → List Char
  | 0, _ => []
  | _ + 1, [] => []
  | fuel + 1, c :: rest =>
    if !pat.isEmpty && pat.isPrefixOf (c :: rest) then
      rep ++ replaceGo pat rep fuel (List.drop pat.length (c :: rest))
    else
      c :: replaceGo pat rep fuel rest

/-- `s.replace(pat, rep)` for a non-empty pattern. -/
def strReplace (s pat rep : String) : String :=
  String.mk (replaceGo pat.data rep.data (s.data.length + 1) s.data)

/-- Python whitespace for `int()`'s surrounding-whitespace tolerance. -/
def charIsSpace (c : Char) : Bool :=
  c = ' ' ∨ c = '\t' ∨ c = '\n' ∨ c = '\r'

/-- Python `int(s)`: optional surrounding whitespace, optional sign, a
non-empty digit run; anything else raises ValueError (`none` here). -/
def strToInt (s : String) : Option Int :=
  let t := (s.data.dropWhile charIsSpace).reverse.dropWhile charIsSpace |>.reverse
  let (neg, ds) : Bool × List Char :=
    match t with
    | '-' :: rest => (true, rest)
    | '+' :: rest => (false, rest)
    | _ => (false, t)
  if ds.isEmpty ∨ ds.any (fun c => !c.isDigit) then none
  else
    let n : Nat := ds.foldl (fun acc c => acc * 10 + (c.toNat - 48)) 0
    some (if neg then -(n : Int) else (n : Int))

/-- `s.split(',', 1)` succeeding: splits at the first comma.  `none` when
there is no comma (Python then raises ValueError on unpacking). -/
def splitFirstComma (s : String) : Option (String × String) :=
  match strSplitOn s "," with
  | [] => none
  | [_] => none
  | a :: rest => some (a, String.intercalate "," rest)

/-- Python `int(s)` on the status-code field (CPython also accepts
surrounding whitespace and an explicit sign). -/
def pyInt (s : String) : Option Int := strToInt s

/-- Python truthiness of an `Option String`: `None` and `""` are falsy. -/
def pyFalsy : Option String → Bool
  | none => true
  | some "" => true
  | some _ => false

/-- `"%s" % arg` for an argument (Python prints `None` for null and the
`repr` of a list of strings). -/
def argFormat : Arg → String
  | Arg.anone => "None"
  | Arg.astr a => a
  | Arg.alist xs => "[" ++ String.intercalate ", " (xs.map (fun x => "'" ++ x ++ "'")) ++ "]"

/-- `_cmd_to_str(cmd, arg)` from `_yokobase.py`. -/
def cmdToStr (cmd : String) (arg : Arg) : String :=
  match arg with
  | Arg.anone => cmd
  | a => cmd ++ " " ++ argFormat a

/-- Substring occurrence, via `splitOn`: `needle` (non-empty) occurs in
`hay` iff splitting produces more than one piece. -/
def strHas (hay needle : String) : Bool :=
  (strSplitOn hay needle).length != 1

/-! ## The integration state machine (`src/yokotools/WT310.py`) -/

/-- The five integration states (`_CHOICES` for `get-integration-state`
in `_wt310.py`, and the state strings used by `yokotools/WT310.py`). -/
def integrationStates : List String := ["start", "stop", "reset", "timeup", "error"]

/-- `WT310._integration_states_check` (yokotools): raise an Error unless
the current integration state is in `allowed_states`.  The current state
is the (lower-cased) reply of `get-integration-state`, passed in here. -/
def integrationStatesCheck (integState cmd : String) (allowedStates : List String) :
    Except String Unit :=
  if integState ∈ allowedStates then Except.ok ()
  else Except.error ("current integration state is \"" ++ integState ++ "\", but \"" ++
    cmd ++ "\" can only be executed in the following state(s): " ++
    String.intercalate ", " allowedStates)

/-- The allowed source states per command, from `_start_integration_check`,
`_stop_integration_check`, `_reset_integration_check` and
`_ongoing_integration_check` as wired by `WT310._define_state_checks`
(yokotools). -/
def wt310StateChecks : List (String × List String) :=
  [ ("set-line-filter", ["reset"]),
    ("set-freq-filter", ["reset"]),
    ("set-measurement-mode", ["reset"]),
    ("set-interval", ["reset"]),
    ("calibrate", ["reset"]),
    ("set-crest-factor", ["reset"]),
    ("set-integration-mode", ["reset"]),
    ("set-integration-timer", ["reset"]),
    ("start-integration", ["reset", "stop"]),
    ("stop-integration", ["start"]),
    ("reset-integration", ["reset", "stop", "timeup", "error"]) ]

/-- Run the state check registered for `cmd` (if any) against the current
integration state: `PowerMeter._command` does
`if cmd in self._state_checks: self._state_checks[cmd](cmd)`. -/
def runStateCheck (cmd integState : String) : Except String Unit :=
  match lookupA wt310StateChecks cmd with
  | none => Except.ok ()
  | some allowed => integrationStatesCheck integState cmd allowed

/-! ## Transport auto-selection (`src/yokolibs/Transport.py`) -/

/-- Outcome of the `ioctl` used by `_USBTMC.__init__` to assert the
device class: success, `ENOTTY` (operation unsupported — wrong device
class), or another I/O error. -/
inductive IoctlOut where
  | iok
  | enotty
  | ierr (msg : String)
deriving DecidableEq, Repr

/-- The environment a transport constructor runs against: which of the
operating-system calls succeed, and the error texts they produce when
they fail. -/
structure DevEnv where
  devnode : String
  devExists : Bool
  statOk : Bool
  statErr : String
  isChr : Bool
  usbOpenOk : Bool
  usbOpenErr : String
  ioctlOut : IoctlOut
  serialInitOk : Bool
  serialInitErr : String
  baudrate : Option Int
  serialOpenOk : Bool
  serialOpenErr : String

/-- Result of running one transport constructor: success, a `_BadInput`
(bad user input / missing device, fatal for the selection loop), or an
`Error`/`TransportError` (appended to the attempt log, selection
continues). -/
inductive CtorRes where
  | success (which : String)
  | badInput (msg : String)
  | cerr (msg : String)
deriving DecidableEq, Repr

/-- `_TransportBase.__init__`: device-node existence, `os.stat` and
character-device checks — all failures are `_BadInput`. -/
def transportBaseInit (env : DevEnv) : Option String :=
  if !env.devExists then
    some ("device node '" ++ env.devnode ++ "' does not exist")
  else if !env.statOk then
    some ("failed access device '" ++ env.devnode ++ "':\n" ++ env.statErr)
  else if !env.isChr then
    some ("device node '" ++ env.devnode ++ "' is not a character device")
  else none

/-- `_USBTMC.__init__`: base checks, `os.open` (failure is `_BadInput`),
then the class-asserting ioctl — `ENOTTY` raises the plain `Error`
"'dev' is not a 'usbtmc' device", any other ioctl failure raises a
`TransportError` (both are caught by the selection loop's
`except Error`). -/
def usbtmcNew (env : DevEnv) : CtorRes :=
  match transportBaseInit env with
  | some m => CtorRes.badInput m
  | none =>
    if !env.usbOpenOk then
      CtorRes.badInput ("error opening device '" ++ env.devnode ++ "':\n" ++ env.usbOpenErr)
    else
      match env.ioctlOut with
      | IoctlOut.iok => CtorRes.success "usbtmc"
      | IoctlOut.enotty => CtorRes.cerr ("'" ++ env.devnode ++ "' is not a usbtmc device")
      | IoctlOut.ierr m =>
        CtorRes.cerr ("ioctl '0X5B02' for device '" ++ env.devnode ++ "' failed:\n" ++ m)

/-- The allowed serial baud rates (`_Serial.__init__`). -/
def serialBaudRates : List Int := [1200, 2400, 4800, 9600, 19200, 38400, 57600]

/-- `_Serial.__init__`: base checks, `serial.Serial()` construction, the
baud-rate validation (`_BadInput` on a bad explicit rate; note Python's
`if kwargs["baudrate"]` skips the check when the rate is 0), then
`open()`. -/
def serialNew (env : DevEnv) : CtorRes :=
  match transportBaseInit env with
  | some m => CtorRes.badInput m
  | none =>
    if !env.serialInitOk then
      CtorRes.cerr ("cannot initialize the serial device '" ++ env.devnode ++ "':\n" ++
        env.serialInitErr)
    else
      match env.baudrate with
      | some b =>
        if b ≠ 0 && !(b ∈ serialBaudRates) then
          CtorRes.badInput ("bad baud rate '" ++ toString b ++ "'")
        else if !env.serialOpenOk then
          CtorRes.cerr ("cannot initialize the serial device '" ++ env.devnode ++ "':\n" ++
            env.serialOpenErr)
        else CtorRes.success "serial"
      | none =>
        if !env.serialOpenOk then
          CtorRes.cerr ("cannot initialize the serial device '" ++ env.devnode ++ "':\n" ++
            env.serialOpenErr)
        else CtorRes.success "serial"

/-- The aggregate error message `Transport.__new__` builds when no
transport class accepted the device.  (The Python code additionally
re-flows these lines through `textwrap` at width 79 with " * " bullets;
the re-flow only inserts line breaks and indentation and is abstracted
away here.) -/
def aggregateMsg (devnode : String) (errs : List (String × String)) : String :=
  "unknown type of the device '" ++ devnode ++
    "'. Here is the log of all the attempts to recognize the device type." ++
    (errs.map (fun p => "\n * " ++ p.1 ++ ": " ++ p.2)).foldl (· ++ ·) ""

/-- `Transport.__new__`: try `_USBTMC` then `_Serial`; a `_BadInput`
re-raises immediately; an `Error` is recorded and the next class is
tried; if every class failed, raise the aggregate `TransportError`.
Also returns the list of transport classes that were attempted. -/
def transportNew (env : DevEnv) : CtorRes × List String :=
  match usbtmcNew env with
  | CtorRes.success w => (CtorRes.success w, ["usbtmc"])
  | CtorRes.badInput m => (CtorRes.badInput m, ["usbtmc"])
  | CtorRes.cerr m1 =>
    match serialNew env with
    | CtorRes.success w => (CtorRes.success w, ["usbtmc", "serial"])
    | CtorRes.badInput m => (CtorRes.badInput m, ["usbtmc", "serial"])
    | CtorRes.cerr m2 =>
      (CtorRes.cerr (aggregateMsg env.devnode [("usbtmc", m1), ("serial", m2)]),
        ["usbtmc", "serial"])

/-! ## Command tables (`_yokobase.py` + `_wt310.py` + `_wt210.py`) -/

/-- The user-visible command names of the base `COMMANDS` table
(`_yokobase.py`).  Only the names matter for dispatch; the table's
`property-descr`/`descr` fields are help text. -/
def baseCOMMANDSNames : List String :=
  [ "get-id",
    "get-current-auto-range", "set-current-auto-range",
    "get-current-range", "set-current-range",
    "get-voltage-auto-range", "set-voltage-auto-range",
    "get-voltage-range", "set-voltage-range",
    "get-interval", "set-interval",
    "configure-data-items", "wait-data-update", "read-data",
    "get-crest-factor", "set-crest-factor",
    "get-smoothing-status", "set-smoothing-status",
    "get-smoothing-type", "set-smoothing-type",
    "get-smoothing-factor", "set-smoothing-factor",
    "get-integration-mode", "set-integration-mode",
    "get-integration-state",
    "get-integration-timer", "set-integration-timer",
    "start-integration", "stop-integration", "reset-integration",
    "get-math", "set-math",
    "get-remote-mode", "set-remote-mode",
    "get-local-mode", "set-local-mode",
    "get-wiring-system",
    "factory-reset", "calibrate", "clear",
    "get-installed-opts",
    "get-measurement-mode", "set-measurement-mode",
    "get-sync-source", "set-sync-source",
    "get-hold", "set-hold",
    "get-max-hold", "set-max-hold",
    "get-line-filter", "set-line-filter",
    "get-freq-filter", "set-freq-filter" ]

/-- The WT310 adapter's public command table: the base `COMMANDS` plus
the WT310-specific additions of `WT310._add_wt310_commands`
(`get-integration-state` overwrites an existing key; `get-keys-locking`
and `set-keys-locking` are new). -/
def wt310PublicNames : List String :=
  baseCOMMANDSNames ++ ["get-keys-locking", "set-keys-locking"]

/-- `_RAW_COMMANDS` of `_yokobase.py`: the wire commands common to all
power meters. -/
def baseRawCommands : List (String × String) :=
  [ ("get-id", "*IDN?"),
    ("get-installed-opts", "*OPT?"),
    ("get-interval", ":SAMP:RATE?"),
    ("set-interval", ":SAMP:RATE"),
    ("get-hold", ":SAMP:HOLD?"),
    ("set-hold", ":SAMP:HOLD"),
    ("get-integration-mode", ":INTEG:MODE?"),
    ("set-integration-mode", ":INTEG:MODE"),
    ("get-integration-timer", ":INTEG:TIM?"),
    ("set-integration-timer", ":INTEG:TIM"),
    ("start-integration", ":INTEG:STAR"),
    ("stop-integration", ":INTEG:STOP"),
    ("reset-integration", ":INTEG:RES"),
    ("get-math", ":MATH?"),
    ("get-remote-mode", ":COMM:REM?"),
    ("set-remote-mode", ":COMM:REM"),
    ("get-local-mode", ":COMM:LOCK?"),
    ("set-local-mode", ":COMM:LOCK"),
    ("factory-reset", "*RST"),
    ("calibrate", "*CAL?"),
    ("get-error-status", ":STAT:ERR?"),
    ("clear", "\n*CLS"),
    ("set-verbose-errors", ":STAT:QMES"),
    ("set-headers", ":COMM:HEAD"),
    ("set-verbose-mode", ":COMM:VERB"),
    ("get-eesr", ":STAT:EESR?") ]

/-- `_RAW_COMMANDS` of `_wt310.py`. -/
def wt310RawCommands : List (String × String) :=
  [ ("get-line-filter", ":INP:FILT:LINE?"),
    ("set-line-filter", ":INP:FILT:LINE"),
    ("get-freq-filter", ":INP:FILT:FREQ?"),
    ("set-freq-filter", ":INP:FILT:FREQ"),
    ("get-max-hold", ":MEAS:MHOL?"),
    ("set-max-hold", ":MEAS:MHOL"),
    ("get-current-auto-range", ":INP:CURR:AUTO?"),
    ("set-current-auto-range", ":INP:CURR:AUTO"),
    ("get-current-range", ":INP:CURR:RANG?"),
    ("set-current-range", ":INP:CURR:RANG"),
    ("get-voltage-auto-range", ":INP:VOLT:AUTO?"),
    ("set-voltage-auto-range", ":INP:VOLT:AUTO"),
    ("get-voltage-range", ":INP:VOLT:RANG?"),
    ("set-voltage-range", ":INP:VOLT:RANG"),
    ("get-keys-locking", ":SYST:KLOC?"),
    ("set-keys-locking", ":SYST:KLOC"),
    ("get-measurement-mode", ":INP:MODE?"),
    ("set-measurement-mode", ":INP:MODE"),
    ("get-sync-source", ":INP:SYNC?"),
    ("set-sync-source", ":INP:SYNC"),
    ("get-crest-factor", ":INP:CFAC?"),
    ("set-crest-factor", ":INP:CFAC"),
    ("get-wiring-system", ":INP:WIR?"),
    ("get-smoothing-status", ":MEAS:AVER:STATE?"),
    ("set-smoothing-status", ":MEAS:AVER:STATE"),
    ("get-smoothing-type", ":MEAS:AVER:TYPE?"),
    ("set-smoothing-type", ":MEAS:AVER:TYPE"),
    ("get-smoothing-factor", ":MEAS:AVER:COUN?"),
    ("set-smoothing-factor", ":MEAS:AVER:COUN"),
    ("get-integration-state", ":INTEG:STAT?"),
    ("set-math", ":MATH"),
    ("set-compat-mode", ":SYST:COMM:COMM"),
    ("get-data-format", ":NUM:FORM?"),
    ("set-data-format", ":NUM:FORM"),
    ("get-data-items-count", ":NUM:NORM:NUM?"),
    ("set-data-items-count", ":NUM:NORM:NUM"),
    ("read-data", ":NUM:NORM:VAL?") ]

/-- The EESR register bits of `_yokobase._EESR_BITS`, in order. -/
def eesrBits : List (String × Nat) :=
  [ ("upd", 0), ("itg", 1), ("itm", 2), ("ovrs", 3), ("fov", 4), ("str", 5),
    ("ovr1", 6), ("pov1", 7), ("poa1", 8), ("ovr2", 9), ("pov2", 10), ("poa2", 11),
    ("ovr3", 12), ("pov3", 13), ("poa3", 14) ]

/-- The EESR-derived raw commands added by
`YokoBase._populate_raw_commands_post`. -/
def eesrRawCommands : List (String × String) :=
  (eesrBits.map (fun p => ("set-eesr-filter-" ++ p.1, ":STAT:FILT" ++ toString (p.2 + 1)))) ++
  (eesrBits.map (fun p => ("eesr-wait-" ++ p.1, ":COMM:WAIT " ++ toString (p.2 + 1))))

/-- The per-slot data-item raw commands of
`WT310._populate_raw_commands` (`:NUM:NORM:ITEM<n>?` / `:NUM:NORM:ITEM<n>`
for n = 1 .. max_data_items = 10). -/
def wt310DataItemRawCommands : List (String × String) :=
  ((List.range 10).map (fun i =>
    ("get-data-item" ++ toString (i + 1), ":NUM:NORM:ITEM" ++ toString (i + 1) ++ "?"))) ++
  ((List.range 10).map (fun i =>
    ("set-data-item" ++ toString (i + 1), ":NUM:NORM:ITEM" ++ toString (i + 1))))

/-- All raw-command assignments performed while building the WT310
private `_commands` dictionary, in program order (later assignments win):
base `_RAW_COMMANDS`, WT310 `_RAW_COMMANDS`, the per-slot data-item
commands, the `raw-cmd = None` defaults of `_add_command_func` for
commands that had no raw command (`configure-data-items` in
`WT310._populate_raw_commands`, `wait-data-update` in
`_populate_raw_commands_post`), and the EESR-derived commands. -/
def wt310RawAssignments : List (String × Option String) :=
  (baseRawCommands.map (fun p => (p.1, some p.2))) ++
  (wt310RawCommands.map (fun p => (p.1, some p.2))) ++
  (wt310DataItemRawCommands.map (fun p => (p.1, some p.2))) ++
  [("configure-data-items", (none : Option String)), ("wait-data-update", none)] ++
  (eesrRawCommands.map (fun p => (p.1, some p.2)))

/-- The WT310 private command dictionary's raw-command entry:
`none` = the command is not in `_commands` at all;
`some none` = present with `raw-cmd = None`;
`some (some r)` = present with wire template `r`. -/
def wt310RawCmdOf (cmd : String) : Option (Option String) :=
  lookupLast wt310RawAssignments cmd

/-- Was the command registered in the private `_commands` dictionary? -/
def wt310IsPrivateCmd (cmd : String) : Bool :=
  (wt310RawCmdOf cmd).isSome

/-- The `has-response`/`has-argument` classification of
`YokoBase._populate_raw_commands_post`: a command has a response (and
takes no argument) iff its name starts with `get-` or its raw command is
non-null and ends with `?`; otherwise it has no response and takes an
argument. -/
def wt310HasResponse (cmd : String) : Bool :=
  strStartsWith cmd "get-" ||
    (match wt310RawCmdOf cmd with
     | some (some raw) => strEndsWith raw "?"
     | _ => false)

/-- `has-argument` is the negation (see `_populate_raw_commands_post`). -/
def wt310HasArgument (cmd : String) : Bool := !wt310HasResponse cmd

/-- The commands bound to a custom handler via `_add_command_func` for
the WT310 adapter (`WT310._populate_raw_commands` +
`YokoBase._populate_raw_commands_post`). -/
def wt310FuncCommands : List String :=
  [ "configure-data-items", "wait-data-update",
    "get-current-range", "set-current-range",
    "get-voltage-range", "set-voltage-range",
    "start-integration" ]

/-- `ON_OFF_CHOICE` of `_yokobase.py`. -/
def onOffChoice : List String := ["on", "off"]

/-- `_yokobase._CHOICES`: `(commands, choices)` pairs. -/
def baseChoicesTable : List (List String × List String) :=
  [ (["get-current-range", "set-current-range"],
      ["auto", "0.0025", "0.005", "0.01", "0.02", "0.05", "0.1", "0.2", "0.5", "1",
       "2", "5", "10", "20"]),
    (["get-voltage-range", "set-voltage-range"],
      ["7.5", "15", "30", "60", "75", "150", "300", "600"]),
    (["get-current-auto-range", "set-current-auto-range"], onOffChoice),
    (["get-voltage-auto-range", "set-voltage-auto-range"], onOffChoice),
    (["get-crest-factor", "set-crest-factor"], ["3", "6"]),
    (["get-interval", "set-interval"], ["0.1", "0.25", "0.5", "1", "2", "5"]),
    (["get-line-filter", "set-line-filter"], onOffChoice),
    (["get-freq-filter", "set-freq-filter"], onOffChoice),
    (["get-smoothing-status", "set-smoothing-status"], onOffChoice),
    (["get-smoothing-type", "set-smoothing-type"], ["linear", "exponent"]),
    (["get-smoothing-factor", "set-smoothing-factor"], ["8", "16", "32", "64"]),
    (["get-integration-mode", "set-integration-mode"], ["normal", "continuous"]),
    (["get-measurement-mode", "set-measurement-mode"], ["rms", "vmean", "dc"]),
    (["get-display-digits", "set-display-digits"], ["4", "5"]),
    (["get-remote-mode", "set-remote-mode"], onOffChoice),
    (["get-local-mode", "set-local-mode"], onOffChoice),
    (["get-verbose-errors", "set-verbose-errors"], onOffChoice),
    (["get-verbose-mode", "set-verbose-mode"], onOffChoice),
    (["get-headers", "set-headers"], onOffChoice) ]

/-- `_wt310._CHOICES`. -/
def wt310ChoicesTable : List (List String × List String) :=
  [ (["get-integration-state"], ["start", "stop", "reset", "timeup", "error"]),
    (["get-data-format", "set-data-format"], ["ascii", "float"]),
    (["get-keys-locking", "set-keys-locking"], onOffChoice),
    (["get-compat-mode", "set-compat-mode"], ["WT200", "WT300"]) ]

/-- The data-item names of the WT310 adapter, in dictionary-insertion
order: `_yokobase._DATA_ITEMS`, then `_wt310._WT310_DATA_ITEMS`, then the
virtual `_VDATA_ITEMS` (see `YokoBase._populate_data_items`). -/
def wt310DataItemNames : List String :=
  [ "V", "I", "P", "S", "Q", "Lambda", "Phi", "Fv", "Fi",
    "Wh", "Whp", "Whm", "Ah", "Ahp", "Ahm", "Vmax", "Imax", "Time", "Math",
    "Vmin", "Imin", "Pmax", "Pmin", "Vrange", "Irange",
    "T", "J" ]

/-- The virtual data items (`_yokobase._VDATA_ITEMS` keys). -/
def vdataItemNames : List String := ["T", "J"]

/-- The math-function names (`_yokobase._MATH_NAMES` keys). -/
def mathNames : List String :=
  ["cfv", "cfi", "add", "sub", "mul", "div", "diva", "divb", "avw"]

/-- All `choices` assignments performed by
`YokoBase._populate_choices` for the WT310 adapter, in program order
(later assignments win): the base `_CHOICES` loop, the model `_CHOICES`
loop, and the four `_add_choices_from_dict` calls.  Assignments only
happen for commands present in the public table (`if cmd in cmds`). -/
def wt310ChoiceAssignments : List (String × List String) :=
  ((baseChoicesTable ++ wt310ChoicesTable).flatMap
    (fun e => e.1.filterMap
      (fun c => if c ∈ wt310PublicNames then some (c, e.2) else none))) ++
  [ ("read-data", wt310DataItemNames),
    ("configure-data-items", wt310DataItemNames),
    ("get-math", mathNames),
    ("set-math", mathNames) ]

/-- The final `choices` entry of a public WT310 command (`None` when no
assignment touched it — `_populate_choices` then stores `None`). -/
def wt310ChoicesOf (cmd : String) : Option (List String) :=
  lookupLast wt310ChoiceAssignments cmd

/-- `max_data_items` of the WT310 adapter (`_wt310._MAX_DATA_ITEMS`). -/
def wt310MaxDataItems : Nat := 10

/-- WT310 data-item translation table (`_wt310._DITT`), human → protocol. -/
def wt310Ditt : List (String × String) :=
  [ ("V", "U"), ("Fv", "Fu"), ("Vmax", "Uppeak"), ("Vmin", "Umpeak"),
    ("Imax", "Ippeak"), ("Imin", "Impeak"), ("Pmax", "Pppeak"), ("Pmin", "Pmpeak"),
    ("Vrange", "Urange") ]

/-! ## Tweaks (`_yokobase.py` / `_wt310.py` / `_wt210.py`)

The tweak chains are embedded deeply: a command's tweak list is a list of
`RTweak`/`ITweak` names (mirroring the Python tables, which hold named
functions), and `applyRTweak`/`applyITweak` give them their semantics. -/

/-- Names of the response tweaks appearing in the tables. -/
inductive RTweak where
  | onOff               -- `on_off_tweak`
  | toLower             -- `to_lower_tweak`
  | toLowerCap          -- `_to_lower_capitalize_tweak`
  | floatToStr          -- `_float_to_str_tweak` ("%g" % float(value))
  | successFailure      -- `_success_failure_tweak`
  | csvToSeconds        -- `_csv_to_seconds_tweak`
  | firstDataElement    -- `_first_data_element_tweak`
  | ptoh310             -- `YokoBase._ptoh_tweak` with the WT310 table
  | ptoh210             -- same with the WT210 table
  | math310             -- `_wt310._math_response_tweak`
  | math210             -- `_wt210._math_response_tweak`
  | smoothType210       -- `_wt210` lambda: x.split(",")[0]
  | smoothFactor210     -- `_wt210` lambda: x.split(",")[1]
  | gdata310            -- `WT310._get_data_tweak` (wraps the base one)
  | gdata210            -- `WT210._get_data_tweak` (wraps the base one)
deriving DecidableEq, Repr

/-- Names of the input tweaks appearing in the tables. -/
inductive ITweak where
  | toLower             -- `to_lower_tweak`
  | toLowerCap          -- `_to_lower_capitalize_tweak`
  | secondsToCsv        -- `_seconds_to_csv_tweak`
  | htop310             -- `YokoBase._htop_tweak` with the WT310 table
  | htop210             -- same with the WT210 table
  | mathInput310        -- `_wt310._math_input_tweak`
deriving DecidableEq, Repr

/-- WT210 data-item translation table (`_wt210._DITT`), human → protocol. -/
def wt210Ditt : List (String × String) :=
  [ ("I", "A"), ("P", "W"), ("S", "Va"), ("Q", "Var"), ("Lambda", "PF"),
    ("Phi", "Degree"), ("Fv", "VHz"), ("Fi", "AHz"), ("Vmax", "Vpk"), ("Imax", "Apk") ]

/-- Python `value.lower().capitalize()`. -/
def pyLowerCapitalize (s : String) : String := (strToLower s).capitalize

/-- `_first_data_element_tweak`: strip a trailing ",1". -/
def firstDataElementStr (s : String) : String :=
  if strEndsWith s ",1" then s.dropRight 2 else s

/-- `_csv_to_seconds_tweak`: fold `h,m,s` into seconds; `int()` of a bad
field raises ValueError. -/
def csvToSecondsStr (s : String) : Except PyErr String := do
  let fields := strSplitOn s ","
  let total ← fields.foldlM (fun (acc : Int) f =>
    match pyInt f with
    | some v => Except.ok (acc * 60 + v)
    | none => Except.error (PyErr.pyexc ("ValueError: invalid literal for int: " ++ f)))
    (0 : Int)
  return toString total

/-- `_seconds_to_csv_tweak` (`divmod` is floor division in Python). -/
def secondsToCsvStr (s : String) : Except PyErr String :=
  match pyInt s with
  | none => Except.error (PyErr.pyexc ("ValueError: invalid literal for int: " ++ s))
  | some v =>
    let minutes := Int.fdiv v 60
    let seconds := Int.fmod v 60
    let hours := Int.fdiv minutes 60
    let mins := Int.fmod minutes 60
    Except.ok (toString hours ++ "," ++ toString mins ++ "," ++ toString seconds)

/-- The effect of `re.search(r"([^\d]*)(\d+)$", s)`: the pattern matches
iff `s` ends with a digit; the leftmost match then captures the maximal
trailing digit run as group 2 and the maximal non-digit run immediately
before it as group 1. -/
def mathRegexSplit (s : String) : Option (String × String) :=
  let rev := s.data.reverse
  let digits := rev.takeWhile Char.isDigit
  if digits.isEmpty then none
  else
    let rest := rev.dropWhile Char.isDigit
    let nonDigits := rest.takeWhile (fun c => !c.isDigit)
    some (String.mk nonDigits.reverse, String.mk digits.reverse)

/-- `_wt310._MATH_NAMES_WITH_ELEMENTS`. -/
def wt310MathNamesWithElements : List String := ["cfv", "cfi", "avw"]

/-- `_wt310._math_response_tweak`. -/
def wt310MathResponseStr (s : String) : String :=
  let v := match mathRegexSplit s with
           | some (g1, _) => g1
           | none => s
  if strStartsWith v "cfu" then "cfv" ++ v.drop 3 else v

/-- `_wt310._math_input_tweak`. -/
def wt310MathInputStr (s : String) : String :=
  let v := if s ∈ wt310MathNamesWithElements then s ++ "1" else s
  if strStartsWith v "cfv" then "cfu" ++ v.drop 3 else v

/-- `_wt210._math_response_tweak`: split on ";", special-case the
crest-factor / average pseudo-functions; unknown names raise an Error. -/
def wt210MathResponseStr (s : String) : Except PyErr String :=
  let parts := strSplitOn s ";"
  match parts.get? 0, parts.get? 1 with
  | some p0, some p1 =>
    if p0 = "ARITHMETIC" then Except.ok (strToLower p1)
    else if p1 = "A,1" then Except.ok "cfi"
    else if p1 = "V,1" then Except.ok "cfv"
    else if p1 = "W,1" then Except.ok "avw"
    else Except.error (PyErr.err ("unknown power meter math function '" ++ s ++ "'"))
  | some p0, none =>
    if p0 = "ARITHMETIC" then Except.error (PyErr.pyexc "IndexError: list index out of range")
    else Except.error (PyErr.pyexc "IndexError: list index out of range")
  | _, _ => Except.error (PyErr.pyexc "IndexError: list index out of range")

/-- `is_in_range` of `_yokobase.py`: string holds an integer within
[start, stop]; a parse failure (ValueError/TypeError) yields `False`. -/
def isInRange (value : String) (start stop : Int) : Bool :=
  match pyInt value with
  | none => false
  | some v => decide (start ≤ v ∧ v ≤ stop)

/-! ## Data-item resolution (`_prepare_data_items_to_read`,
`_get_data_tweak`) -/

/-- The loop body of `YokoBase._prepare_data_items_to_read`: walk the
requested items, substituting "P" for the virtual "J", appending each
physical item not seen before to the fetch list and recording its
position in the index map. -/
def prepareGo : List String → List String → List (String × Nat) → Nat →
    List String × List (String × Nat)
  | [], res, idxs, _ => (res, idxs)
  | item :: rest, res, idxs, idx =>
    let it := if item = "J" then "P" else item
    if !(vdataItemNames.contains it) && (lookupA idxs it).isNone then
      prepareGo rest (res ++ [it]) (idxs ++ [(it, idx)]) (idx + 1)
    else
      prepareGo rest res idxs idx

/-- `YokoBase._prepare_data_items_to_read`: returns the physical fetch
list and the fresh `_item_indexes` map. -/
def prepareDataItemsToRead (items : List String) : List String × List (String × Nat) :=
  prepareGo items [] [] 0

/-- `YokoBase._get_data_tweak`: re-expand the raw (already normalized)
response list along `_items_to_read`, injecting the virtual items.
`ts` is the `str(timestamp)` captured by the single `time.time()` call;
multiplication with the cached interval is abstracted by `FloatOps`.
Missing indexes/short responses surface as the Python KeyError /
IndexError / TypeError they would raise. -/
def getDataTweakBase (fops : FloatOps) (eng : EngSt) (ts : String)
    (response : List String) : Except PyErr (List String) :=
  go eng.itemsToRead []
where
  go : List String → List String → Except PyErr (List String)
  | [], acc => Except.ok acc
  | item :: rest, acc =>
    if !(vdataItemNames.contains item) then
      match eng.itemIndexes with
      | none => Except.error (PyErr.pyexc "TypeError: item indexes not configured")
      | some idxs =>
        match lookupA idxs item with
        | none => Except.error (PyErr.pyexc ("KeyError: " ++ item))
        | some i =>
          match response.get? i with
          | none => Except.error (PyErr.pyexc "IndexError: list index out of range")
          | some v => go rest (acc ++ [v])
    else if item = "T" then go rest (acc ++ [ts])
    else if item = "J" then
      match eng.itemIndexes with
      | none => Except.error (PyErr.pyexc "TypeError: item indexes not configured")
      | some idxs =>
        match lookupA idxs "P" with
        | none => Except.error (PyErr.pyexc "KeyError: P")
        | some i =>
          match response.get? i with
          | none => Except.error (PyErr.pyexc "IndexError: list index out of range")
          | some p =>
            match eng.interval with
            | none => Except.error (PyErr.pyexc "TypeError: interval not configured")
            | some ivl => go rest (acc ++ [fops.mulIntervalStr p ivl])
    else go rest acc

/-- Give a response tweak its semantics.  Tweaks receive `(cmd, value)`
in the source; all of them ignore `cmd`.  A string tweak applied to a
list value raises the AttributeError/TypeError CPython would. -/
def applyRTweak (fops : FloatOps) (t : RTweak) (_cmd : String) (v : Val) : M Val :=
  match t with
  | RTweak.gdata310 =>
    match v with
    | Val.vstr raw => do
      -- WT310._get_data_tweak: `[str(float(v)) for v in response.split(",")]`
      let xs := (strSplitOn raw ",").map fops.floatStr
      let n ← takeTick
      let eng ← readEng
      let out ← liftE (getDataTweakBase fops eng (fops.timeStr n) xs)
      pure (Val.vlist out)
    | _ => throwE (PyErr.pyexc "AttributeError")
  | RTweak.gdata210 =>
    match v with
    | Val.vstr raw => do
      -- WT210._get_data_tweak: float-normalize with the 9.9E37 overrange
      -- sentinel mapped to "nan", reorder along the WT210 slot indexes,
      -- then the base tweak.
      let items := (strSplitOn raw ",").map
        (fun x => if fops.overrange x then "nan" else fops.floatStr x)
      let eng ← readEng
      let result ← match eng.wt210ItemsToRead, eng.wt210ItemIndexes with
        | some toRead, some idxs =>
          toRead.foldlM (fun (acc : List String) item =>
            match lookupA idxs item with
            | none => throwE (PyErr.pyexc ("KeyError: " ++ item))
            | some i =>
              match items.get? i with
              | none => throwE (PyErr.pyexc "IndexError: list index out of range")
              | some x => pure (acc ++ [x])) []
        | _, _ => throwE (PyErr.pyexc "TypeError: WT210 items not configured")
      let n ← takeTick
      let out ← liftE (getDataTweakBase fops eng (fops.timeStr n) result)
      pure (Val.vlist out)
    | _ => throwE (PyErr.pyexc "AttributeError")
  | other =>
    match v with
    | Val.vstr s =>
      match other with
      | RTweak.onOff => pure (Val.vstr (if s = "0" then "off" else "on"))
      | RTweak.toLower => pure (Val.vstr (strToLower s))
      | RTweak.toLowerCap => pure (Val.vstr (pyLowerCapitalize s))
      | RTweak.floatToStr => pure (Val.vstr (fops.gFormat s))
      | RTweak.successFailure => pure (Val.vstr (if s = "0" then "success" else "failure"))
      | RTweak.csvToSeconds => do
        let r ← liftE (csvToSecondsStr s); pure (Val.vstr r)
      | RTweak.firstDataElement => pure (Val.vstr (firstDataElementStr s))
      | RTweak.ptoh310 =>
        pure (Val.vstr ((lookupA (wt310Ditt.map (fun p => (p.2, p.1))) s).getD s))
      | RTweak.ptoh210 =>
        pure (Val.vstr ((lookupA (wt210Ditt.map (fun p => (p.2, p.1))) s).getD s))
      | RTweak.math310 => pure (Val.vstr (wt310MathResponseStr s))
      | RTweak.math210 => do
        let r ← liftE (wt210MathResponseStr s); pure (Val.vstr r)
      | RTweak.smoothType210 => pure (Val.vstr (((strSplitOn s ",").get? 0).getD s))
      | RTweak.smoothFactor210 =>
        match (strSplitOn s ",").get? 1 with
        | some x => pure (Val.vstr x)
        | none => throwE (PyErr.pyexc "IndexError: list index out of range")
      | _ => pure (Val.vstr s)
    | _ => throwE (PyErr.pyexc "AttributeError")

/-- Give an input tweak its semantics (input tweaks are applied to the
string argument before the wire request is built). -/
def applyITweak (t : ITweak) (_cmd : String) (s : String) : Except PyErr String :=
  match t with
  | ITweak.toLower => Except.ok (strToLower s)
  | ITweak.toLowerCap => Except.ok (pyLowerCapitalize s)
  | ITweak.secondsToCsv => secondsToCsvStr s
  | ITweak.htop310 => Except.ok ((lookupA wt310Ditt s).getD s)
  | ITweak.htop210 => Except.ok ((lookupA wt210Ditt s).getD s)
  | ITweak.mathInput310 => Except.ok (wt310MathInputStr s)

/-! ## Tweak tables -/

/-- The merged response-tweak table of the WT310 adapter:
`_yokobase._TWEAKS`, then `_wt310._TWEAKS` (per-key overwrite — no key
conflicts arise), then the `read-data` tweak and the per-slot data-item
tweaks installed by `YokoBase._populate_tweaks`. -/
def wt310RespTweaksTable : List (String × List RTweak) :=
  [ ("get-voltage-auto-range", [RTweak.onOff]),
    ("get-current-auto-range", [RTweak.onOff]),
    ("get-hold", [RTweak.onOff]),
    ("get-max-hold", [RTweak.onOff]),
    ("get-line-filter", [RTweak.onOff]),
    ("get-freq-filter", [RTweak.onOff]),
    ("get-smoothing-status", [RTweak.onOff]),
    ("get-sync-source", [RTweak.toLower]),
    ("get-measurement-mode", [RTweak.toLower]),
    ("get-remote-mode", [RTweak.onOff]),
    ("get-local-mode", [RTweak.onOff]),
    ("get-voltage-range", [RTweak.floatToStr]),
    ("get-current-range", [RTweak.floatToStr]),
    ("get-interval", [RTweak.floatToStr]),
    ("calibrate", [RTweak.successFailure]),
    ("get-integration-mode", [RTweak.toLower]),
    ("get-integration-timer", [RTweak.csvToSeconds]),
    ("get-smoothing-type", [RTweak.toLower]),
    ("get-integration-state", [RTweak.toLower]),
    ("get-keys-locking", [RTweak.onOff]),
    ("get-data-format", [RTweak.toLower]),
    ("get-math", [RTweak.toLower, RTweak.math310]),
    ("read-data", [RTweak.gdata310]) ] ++
  ((List.range 10).map (fun i =>
    ("get-data-item" ++ toString (i + 1),
     [RTweak.firstDataElement, RTweak.toLowerCap, RTweak.ptoh310])))

/-- The merged input-tweak table of the WT310 adapter. -/
def wt310InputTweaksTable : List (String × List ITweak) :=
  [ ("set-integration-timer", [ITweak.secondsToCsv]),
    ("set-math", [ITweak.toLower, ITweak.mathInput310]) ] ++
  ((List.range 10).map (fun i =>
    ("set-data-item" ++ toString (i + 1), [ITweak.toLowerCap, ITweak.htop310])))

def wt310RespTweaksOf (cmd : String) : List RTweak :=
  (lookupA wt310RespTweaksTable cmd).getD []

def wt310InputTweaksOf (cmd : String) : List ITweak :=
  (lookupA wt310InputTweaksTable cmd).getD []

/-! ## Error-code map (`_ERROR_CODES_MAP` + `_populate_errors_map_map`) -/

/-- An entry of the error-code map: a static message or a resolver
function bound to `(command, argument, code, rawMessage)`. -/
inductive ErrEntry where
  | emsg (m : String)
  | efunc (f : String → Arg → Int → String → Option String)

/-- `YokoBase._integration_error_handler`. -/
def integrationErrorHandler (_cmd : String) (_arg : Arg) (code : Int)
    (_rawmsg : String) : Option String :=
  if code = 845 then
    some ("current integration state is 'start' and it cannot be changed to 'reset', " ++
      "please stop it first")
  else if code = 842 then
    some "integration is already in the 'start' state"
  else if code = 844 then
    some ("cannot stop integration because it is not in the 'start' state, please " ++
      "start it first")
  else
    some ""

/-- The errors map shared by both adapters: code 813 has a static
message, codes 842/844/845 resolve through
`_integration_error_handler`. -/
def baseErrorsMap (code : Int) : Option ErrEntry :=
  if code = 813 then
    some (ErrEntry.emsg "operation is not allowed during integration, please reset integration first")
  else if code = 842 ∨ code = 844 ∨ code = 845 then
    some (ErrEntry.efunc integrationErrorHandler)
  else none

/-! ## The generic command engine (`YokoBase`) -/

/-- The per-model data driving the generic engine: the private command
dictionary (raw commands, in `wt310RawCmdOf` encoding), the
response/argument classification, the tweak tables and the errors map. -/
structure Model where
  rawCmdOf : String → Option (Option String)
  hasResponse : String → Bool
  hasArgument : String → Bool
  inputTweaksOf : String → List ITweak
  respTweaksOf : String → List RTweak
  errorsMap : Int → Option ErrEntry

/-- The WT310 model data. -/
def wt310Model : Model where
  rawCmdOf := wt310RawCmdOf
  hasResponse := wt310HasResponse
  hasArgument := wt310HasArgument
  inputTweaksOf := wt310InputTweaksOf
  respTweaksOf := wt310RespTweaksOf
  errorsMap := baseErrorsMap

/-- `YokoBase._apply_input_tweaks` on a non-null argument: a string runs
through the chain; a list argument reaches the chain only for commands
without input tweaks (a string tweak applied to a list would raise). -/
def tweakArg (m : Model) (cmd : String) : Arg → Except PyErr Arg
  | Arg.anone => Except.ok Arg.anone
  | Arg.astr a => do
    let r ← (m.inputTweaksOf cmd).foldlM (fun acc t => applyITweak t cmd acc) a
    return Arg.astr r
  | Arg.alist xs =>
    if (m.inputTweaksOf cmd).isEmpty then Except.ok (Arg.alist xs)
    else Except.error (PyErr.pyexc "AttributeError: string tweak applied to a list")

/-- `YokoBase._apply_response_tweaks`. -/
def applyRespTweaks (fops : FloatOps) (m : Model) (cmd : String) (v : Val) : M Val :=
  (m.respTweaksOf cmd).foldlM (fun acc t => applyRTweak fops t cmd acc) v

/-- `YokoBase._check_error_status`: query the status register, parse
`code,rawMessage`, and resolve a nonzero code through the errors map.
Returns `none` when there is no error (or the resolver handled it) and
the message for the `Error` to raise otherwise. -/
def checkErrorStatus (m : Model) (cmd : String) (arg : Arg) : M (Option String) := do
  let statusCmd := ((m.rawCmdOf "get-error-status").getD none).getD ""
  let response ← catchTransport
    (do writelineRaw statusCmd; readlineRaw)
    (fun em => throwE (PyErr.transport
      ("failed to check error status of command '" ++ cmdToStr cmd arg ++ "':\n" ++ em ++
       "\nRaw command was '" ++ statusCmd ++ "'")))
  match splitFirstComma response with
  | none => throwE (PyErr.badResp
      ("unexpected power meter response '" ++ response ++ "' to the '" ++ statusCmd ++ "' command"))
  | some (codeStr, rawmsg) => do
    let code ← match pyInt codeStr with
      | some c => pure c
      | none => throwE (PyErr.pyexc ("ValueError: invalid literal for int: " ++ codeStr))
    if code = 0 then pure none
    else
      match m.errorsMap code with
      | some (ErrEntry.efunc f) =>
        -- msg = func(...); `if not msg: return None` — note a falsy ""
        -- is swallowed here, making the `if msg == "":` branch below dead.
        let msg := f cmd arg code rawmsg
        if pyFalsy msg then pure none
        else
          let mg := if msg = some "" then response else msg.getD ""
          pure (some ("command '" ++ cmdToStr cmd arg ++ "' failed:\n" ++ mg))
      | some (ErrEntry.emsg mg) =>
        pure (some ("command '" ++ cmdToStr cmd arg ++ "' failed:\n" ++ mg))
      | none =>
        pure (some ("command '" ++ cmdToStr cmd arg ++ "' failed:\n" ++ response))

/-- The raw-command path of `YokoBase._command` (the branch taken when
the command has no handler function or `func=False` was passed): apply
the input tweaks, build the wire request (template plus " arg" when an
argument is present), write it (transport failures re-wrapped with call
context), read and tweak the response if the command has one, and then —
unless suppressed — run the status check, raising an `Error` when it
reports a message. -/
def commandRaw (fops : FloatOps) (m : Model) (cmd : String) (arg : Arg)
    (checkStatus : Bool) : M (Option Val) := do
  let argT ← liftE (tweakArg m cmd arg)
  let raw0 ← match m.rawCmdOf cmd with
    | some (some r) => pure r
    | some none => throwE (PyErr.pyexc "TypeError: raw command is None")
    | none => throwE (PyErr.pyexc ("KeyError: " ++ cmd))
  let raw := match argT with
    | Arg.anone => raw0
    | a => raw0 ++ " " ++ argFormat a
  catchTransport (writelineRaw raw) (fun em => throwE (PyErr.transport
    ("failed to write command '" ++ cmd ++ "' to the power meter:\n" ++ em ++
     "\nRaw command was '" ++ raw ++ "'")))
  let resp ← if m.hasResponse cmd then do
      let r ← catchTransport readlineRaw (fun em => throwE (PyErr.transport
        ("failed to read power meter response to '" ++ cmdToStr cmd argT ++ "':\n" ++ em ++
         "\nRaw command was '" ++ raw ++ "'")))
      let v ← applyRespTweaks fops m cmd (Val.vstr r)
      pure (some v)
    else pure (none : Option Val)
  if checkStatus then do
    let msg? ← checkErrorStatus m cmd argT
    match msg? with
    | some mg => throwE (PyErr.err mg)
    | none => pure resp
  else pure resp

/-! ## Argument verification (`YokoBase._verify_argument` +
`WT310._populate_arg_verify_funcs`) -/

/-- `_wt310._verify_data_items_count` lifted to an argument (Python's
`int()` failure on a list/None is caught inside `is_in_range` and yields
`False`). -/
def verifyDataItemsCountA : Arg → Except PyErr Bool
  | Arg.astr s => Except.ok (isInRange s 1 10)
  | _ => Except.ok false

/-- `WT310._verify_math_name` on a string. -/
def wt310VerifyMathNameStr (name : String) : Bool :=
  match mathRegexSplit name with
  | some (g1, g2) =>
    if !isInRange g2 1 1 then false
    else if !(wt310MathNamesWithElements.contains g1) then false
    else mathNames.contains g1
  | none => mathNames.contains name

/-- `WT310._verify_math_name` lifted to an argument: `None` is rejected
explicitly; `re.search` on a list raises TypeError. -/
def wt310VerifyMathNameA : Arg → Except PyErr Bool
  | Arg.anone => Except.ok false
  | Arg.astr s => Except.ok (wt310VerifyMathNameStr s)
  | Arg.alist _ => Except.error (PyErr.pyexc "TypeError: expected string or bytes-like object")

/-- The `verify-arg` entries of the WT310 private command table
(`WT310._populate_arg_verify_funcs` — note it overrides the base method
and does NOT install the base `set-integration-timer` verifier). -/
def wt310VerifyArgOf (cmd : String) : Option (Arg → Except PyErr Bool) :=
  if cmd = "set-data-items-count" then some verifyDataItemsCountA
  else if cmd = "set-math" then some wt310VerifyMathNameA
  else none

/-- The `ErrorBadArgument` message (`_exceptions.py`):
`"unacceptable argument '%s' for command '%s'"`. -/
def badArgMsg (cmd a : String) : String :=
  "unacceptable argument '" ++ a ++ "' for command '" ++ cmd ++ "'"

/-- `YokoBase._verify_argument` for the WT310 adapter: enumerated-domain
membership (element-wise for a list argument; skipped when the command
declares no choices — Python's `if choices:`), then the custom
`verify-arg` predicate when one is installed. -/
def verifyArgument (cmd : String) (arg : Arg) : Except PyErr Unit := do
  (match wt310ChoicesOf cmd with
   | some cs =>
     if cs.isEmpty then Except.ok ()
     else
       match arg with
       | Arg.alist xs =>
         match xs.find? (fun x => !(cs.contains x)) with
         | some bad => Except.error (PyErr.badArg (some cmd) (some bad) (badArgMsg cmd bad))
         | none => Except.ok ()
       | Arg.astr a =>
         if cs.contains a then Except.ok ()
         else Except.error (PyErr.badArg (some cmd) (some a) (badArgMsg cmd a))
       | Arg.anone =>
         Except.error (PyErr.badArg (some cmd) none (badArgMsg cmd "None"))
   | none => Except.ok ())
  match wt310VerifyArgOf cmd with
  | some f =>
    match f arg with
    | Except.error e => Except.error e
    | Except.ok true => Except.ok ()
    | Except.ok false =>
      Except.error (PyErr.badArg (some cmd) (some (argFormat arg))
        (badArgMsg cmd (argFormat arg)))
  | none => Except.ok ()

/-! ## The WT310 custom handlers -/

/-- Format an `Option Val` the way `"%s" %` would (used in the
crest-factor error message where the queried crest value is spliced in). -/
def valFormat : Option Val → String
  | some (Val.vstr s) => s
  | some (Val.vlist xs) => argFormat (Arg.alist xs)
  | none => "None"

/-- Python iteration over the handler argument: a list iterates its
elements, a string its characters, `None` raises TypeError. -/
def pyIterItems : Arg → Except PyErr (List String)
  | Arg.alist xs => Except.ok xs
  | Arg.astr s => Except.ok (s.data.map (fun c => String.mk [c]))
  | Arg.anone => Except.error (PyErr.pyexc "TypeError: NoneType is not iterable")

/-- `YokoBase._wait_data_update_cmd`: clear the EESR by reading it, then
block on the event-wait raw command; both sub-commands run with
`check_status=False` (neither has a handler, so `self._command` takes the
raw path). -/
def waitDataUpdateCmd (fops : FloatOps) : M (Option Val) := do
  let _ ← commandRaw fops wt310Model "get-eesr" Arg.anone false
  let _ ← commandRaw fops wt310Model "eesr-wait-upd" Arg.anone false
  pure none

/-- `YokoBase._get_range_cmd`: read the range with `func=False` (the raw
path), then the corresponding auto-range flag (no handler is installed on
the auto-range commands, so this is also the raw path), appending
" (auto)" when the flag is on. -/
def getRangeCmd (fops : FloatOps) (cmd : String) : M (Option Val) := do
  let result ← commandRaw fops wt310Model cmd Arg.anone true
  let auto ← commandRaw fops wt310Model (strReplace cmd "-range" "-auto-range") Arg.anone true
  if auto = some (Val.vstr "on") then
    match result with
    | some (Val.vstr s) => pure (some (Val.vstr (s ++ " (auto)")))
    | _ => throwE (PyErr.pyexc "TypeError: cannot concatenate")
  else pure result

/-- `YokoBase._set_range_cmd`: "auto" turns the auto-range flag on and
returns; otherwise the flag is turned off first, then — only when the
argument is the second (`choices[1]`) or last (`choices[-1]`) declared
choice — the crest factor is queried and the range/crest coupling
enforced, and finally the value is forwarded with `func=False`. -/
def setRangeCmd (fops : FloatOps) (cmd : String) (arg : Arg) : M (Option Val) := do
  let autoRangeCmd := strReplace cmd "-range" "-auto-range"
  if arg = Arg.astr "auto" then do
    let _ ← commandRaw fops wt310Model autoRangeCmd (Arg.astr "on") true
    pure none
  else do
    let _ ← commandRaw fops wt310Model autoRangeCmd (Arg.astr "off") true
    let choices := (wt310ChoicesOf cmd).getD []
    let lo ← match choices.get? 1 with
      | some x => pure x
      | none => throwE (PyErr.pyexc "IndexError: tuple index out of range")
    let hi ← match choices.getLast? with
      | some x => pure x
      | none => throwE (PyErr.pyexc "IndexError: tuple index out of range")
    if arg = Arg.astr lo ∨ arg = Arg.astr hi then do
      let what := ((strSplitOn cmd "-").get? 1).getD ""
      let crest ← commandRaw fops wt310Model "get-crest-factor" Arg.anone true
      let crestS := valFormat crest
      let crestNeeded : Option String :=
        if crestS = "3" ∧ arg = Arg.astr lo then some "6"
        else if crestS = "6" ∧ arg = Arg.astr hi then some "3"
        else none
      match crestNeeded with
      | some cn =>
        throwE (PyErr.err (what ++ " range " ++ argFormat arg ++
          " is only available when crest factor is " ++ cn ++
          ", but currently it is " ++ crestS))
      | none => do
        let _ ← commandRaw fops wt310Model cmd arg true
        pure none
    else do
      let _ ← commandRaw fops wt310Model cmd arg true
      pure none

/-- `YokoBase._start_integration_cmd`: run the raw command (`func=False`)
and sleep 0.2s to let the integrator settle (the sleep has no observable
effect in this model). -/
def startIntegrationCmd (fops : FloatOps) (cmd : String) : M (Option Val) := do
  let _ ← commandRaw fops wt310Model cmd Arg.anone true
  pure none

/-- `YokoBase._configure_data_items_cmd` (the base part of the WT310
handler): record the requested items in `_items_to_read` (NOTE: this
assignment happens before any validation), reject over-long lists and
unknown items, cache the data-update interval, build the physical fetch
list and the index map, and arm the falling-edge trigger on the "upd"
EESR bit.  Returns the physical fetch list. -/
def configureDataItemsBase (fops : FloatOps) (arg : Arg) : M (List String) := do
  let items ← liftE (pyIterItems arg)
  modEng (fun e => { e with itemsToRead := items })
  if items.length > wt310MaxDataItems then
    throwE (PyErr.err ("too many data items, please, specify at most " ++
      toString wt310MaxDataItems))
  else
    match items.find? (fun i => !(wt310DataItemNames.contains i)) with
    | some bad => throwE (PyErr.badArg none none ("bad data item '" ++ bad ++ "'"))
    | none => do
      let ivl ← commandRaw fops wt310Model "get-interval" Arg.anone true
      let ivlS ← match ivl with
        | some (Val.vstr s) => pure s
        | _ => throwE (PyErr.pyexc "TypeError: float() argument")
      modEng (fun e => { e with interval := some ivlS })
      let pr := prepareDataItemsToRead items
      modEng (fun e => { e with itemIndexes := some pr.2 })
      let _ ← commandRaw fops wt310Model "set-eesr-filter-upd" (Arg.astr "fall") true
      pure pr.1

/-- Configure the n-th and following data-item slots
(`for idx, data_item in enumerate(items, 1): ...` in
`WT310._configure_data_items_cmd`). -/
def setSlots (fops : FloatOps) : List String → Nat → M Unit
  | [], _ => pure ()
  | item :: rest, idx => do
    let _ ← commandRaw fops wt310Model ("set-data-item" ++ toString idx) (Arg.astr item) true
    setSlots fops rest (idx + 1)

/-- `WT310._configure_data_items_cmd`: the base configuration, then —
when the physical fetch list is non-empty — the count-setting call and
one slot-setting call per physical item. -/
def wt310ConfigureDataItemsCmd (fops : FloatOps) (arg : Arg) : M (Option Val) := do
  let phys ← configureDataItemsBase fops arg
  if phys.isEmpty then pure none
  else do
    let _ ← commandRaw fops wt310Model "set-data-items-count"
      (Arg.astr (toString phys.length)) true
    setSlots fops phys 1
    pure none

/-- Dispatch to the handler registered for `cmd`
(`self._commands[cmd]["func"](cmd, arg)` in `YokoBase._command`); only
the commands in `wt310FuncCommands` reach this function. -/
def wt310RunFunc (fops : FloatOps) (cmd : String) (arg : Arg) : M (Option Val) :=
  if cmd = "wait-data-update" then waitDataUpdateCmd fops
  else if cmd = "get-current-range" ∨ cmd = "get-voltage-range" then getRangeCmd fops cmd
  else if cmd = "set-current-range" ∨ cmd = "set-voltage-range" then setRangeCmd fops cmd arg
  else if cmd = "start-integration" then startIntegrationCmd fops cmd
  else if cmd = "configure-data-items" then wt310ConfigureDataItemsCmd fops arg
  else pure none

/-- `YokoBase._command` for the WT310 adapter: dispatch to the handler
when one is installed (and `func` was not suppressed), else the raw
path. -/
def wt310UnderCommand (fops : FloatOps) (cmd : String) (arg : Arg)
    (checkStatus useFunc : Bool) : M (Option Val) :=
  if useFunc && wt310FuncCommands.contains cmd then wt310RunFunc fops cmd arg
  else commandRaw fops wt310Model cmd arg checkStatus

/-- `YokoBase.command` for the WT310 adapter: the public entry point.
Unknown names raise "bad command" before anything else; the argument
coercion to string form is the identity here (`Arg` already holds
strings); then the sanity checks — argument verification for commands
marked `has-argument`, the "accepts no arguments" error otherwise — and
finally `_command`. -/
def wt310Command (fops : FloatOps) (cmd : String) (arg : Arg) : M (Option Val) :=
  if !(wt310PublicNames.contains cmd) then
    throwE (PyErr.err ("bad command '" ++ cmd ++ "'"))
  else if wt310HasArgument cmd then
    match verifyArgument cmd arg with
    | Except.error e => throwE e
    | Except.ok _ => wt310UnderCommand fops cmd arg true true
  else if arg ≠ Arg.anone then
    throwE (PyErr.err ("command '" ++ cmd ++ "' accepts no arguments, but '" ++
      argFormat arg ++ "' was provided"))
  else wt310UnderCommand fops cmd arg true true

/-! ## The WT210 adapter (`_wt210.py`) -/

/-- `_wt210._RAW_COMMANDS`. -/
def wt210RawCommands : List (String × String) :=
  [ ("get-line-filter", ":CONF:LFILT?"),
    ("set-line-filter", ":CONF:LFILT"),
    ("get-freq-filter", ":CONF:FILT?"),
    ("set-freq-filter", ":CONF:FILT"),
    ("get-max-hold", ":CONF:MHOL?"),
    ("set-max-hold", ":CONF:MHOL"),
    ("get-current-auto-range", ":CONF:CURR:AUTO?"),
    ("set-current-auto-range", ":CONF:CURR:AUTO"),
    ("get-current-range", ":CONF:CURR:RANG?"),
    ("set-current-range", ":CONF:CURR:RANG"),
    ("get-voltage-auto-range", ":CONF:VOLT:AUTO?"),
    ("set-voltage-auto-range", ":CONF:VOLT:AUTO"),
    ("get-voltage-range", ":CONF:VOLT:RANG?"),
    ("set-voltage-range", ":CONF:VOLT:RANG"),
    ("get-measurement-mode", ":CONF:MODE?"),
    ("set-measurement-mode", ":CONF:MODE"),
    ("get-sync-source", ":CONF:SYNC?"),
    ("set-sync-source", ":CONF:SYNC"),
    ("get-crest-factor", ":CONF:CFAC?"),
    ("set-crest-factor", ":CONF:CFAC"),
    ("get-wiring-system", ":CONF:WIR?"),
    ("get-smoothing-status", ":CONF:AVER:STAT?"),
    ("set-smoothing-status", ":CONF:AVER:STAT"),
    ("get-smoothing-type", ":CONF:AVER:TYPE?"),
    ("set-smoothing", ":CONF:AVER:TYPE"),
    ("get-smoothing-factor", ":CONF:AVER:TYPE?"),
    ("set-math-type", ":MATH:TYPE"),
    ("set-math-cfac", ":MATH:CFAC"),
    ("set-math-aver", ":MATH:AVER"),
    ("set-math-arit", ":MATH:ARIT"),
    ("read-data", ":MEAS:VAL?") ]

/-- The WT210 data-item names: `_DATA_ITEMS` plus the virtual items
(`WT210.__init__` passes no model-specific items). -/
def wt210DataItemNames : List String :=
  [ "V", "I", "P", "S", "Q", "Lambda", "Phi", "Fv", "Fi",
    "Wh", "Whp", "Whm", "Ah", "Ahp", "Ahm", "Vmax", "Imax", "Time", "Math",
    "T", "J" ]

/-- The WT210 per-item raw commands
(`WT210._populate_raw_commands`): one get/set pair per data-item name,
with the protocol name from the translation table. -/
def wt210DataItemRawCommands : List (String × String) :=
  wt210DataItemNames.flatMap (fun n =>
    let p := (lookupA wt210Ditt n).getD n
    [ ("get-data-item-" ++ n, ":MEAS:ITEM:" ++ p ++ "?"),
      ("set-data-item-" ++ n, ":MEAS:ITEM:" ++ p) ])

/-- All raw-command assignments for the WT210 private table, in program
order: base `_RAW_COMMANDS`, `_wt210._RAW_COMMANDS`, the per-item
commands, the `raw-cmd = None` defaults created by `_add_command_func`
for the WT210 handler commands that had no wire template, and the
EESR/`wait-data-update` additions of `_populate_raw_commands_post`. -/
def wt210RawAssignments : List (String × Option String) :=
  (baseRawCommands.map (fun p => (p.1, some p.2))) ++
  (wt210RawCommands.map (fun p => (p.1, some p.2))) ++
  (wt210DataItemRawCommands.map (fun p => (p.1, some p.2))) ++
  [ ("configure-data-items", (none : Option String)),
    ("set-smoothing-type", none),
    ("set-smoothing-factor", none),
    ("get-integration-state", none),
    ("set-math", none),
    ("wait-data-update", none) ] ++
  (eesrRawCommands.map (fun p => (p.1, some p.2)))

def wt210RawCmdOf (cmd : String) : Option (Option String) :=
  lookupLast wt210RawAssignments cmd

def wt210HasResponse (cmd : String) : Bool :=
  strStartsWith cmd "get-" ||
    (match wt210RawCmdOf cmd with
     | some (some raw) => strEndsWith raw "?"
     | _ => false)

def wt210HasArgument (cmd : String) : Bool := !wt210HasResponse cmd

/-- The commands with a custom handler in the WT210 adapter. -/
def wt210FuncCommands : List String :=
  [ "configure-data-items", "set-smoothing-type", "set-smoothing-factor",
    "get-integration-state", "set-math",
    "wait-data-update", "get-current-range", "set-current-range",
    "get-voltage-range", "set-voltage-range", "start-integration" ]

/-- The merged response-tweak table of the WT210 adapter
(`_yokobase._TWEAKS`, `_wt210._TWEAKS`, the `read-data` tweak, and the
per-item tweak chains). -/
def wt210RespTweaksTable : List (String × List RTweak) :=
  [ ("get-voltage-auto-range", [RTweak.onOff]),
    ("get-current-auto-range", [RTweak.onOff]),
    ("get-hold", [RTweak.onOff]),
    ("get-max-hold", [RTweak.onOff]),
    ("get-line-filter", [RTweak.onOff]),
    ("get-freq-filter", [RTweak.onOff]),
    ("get-smoothing-status", [RTweak.onOff]),
    ("get-sync-source", [RTweak.toLower]),
    ("get-measurement-mode", [RTweak.toLower]),
    ("get-remote-mode", [RTweak.onOff]),
    ("get-local-mode", [RTweak.onOff]),
    ("get-voltage-range", [RTweak.floatToStr]),
    ("get-current-range", [RTweak.floatToStr]),
    ("get-interval", [RTweak.floatToStr]),
    ("calibrate", [RTweak.successFailure]),
    ("get-integration-mode", [RTweak.toLower]),
    ("get-integration-timer", [RTweak.csvToSeconds]),
    ("get-smoothing-type", [RTweak.toLower, RTweak.smoothType210]),
    ("get-smoothing-factor", [RTweak.toLower, RTweak.smoothFactor210]),
    ("get-math", [RTweak.math210]),
    ("read-data", [RTweak.gdata210]) ] ++
  (wt210DataItemNames.map (fun n =>
    ("get-data-item-" ++ n, [RTweak.firstDataElement, RTweak.toLowerCap, RTweak.ptoh210])))

/-- The merged input-tweak table of the WT210 adapter. -/
def wt210InputTweaksTable : List (String × List ITweak) :=
  [ ("set-integration-timer", [ITweak.secondsToCsv]) ] ++
  (wt210DataItemNames.map (fun n =>
    ("set-data-item-" ++ n, [ITweak.toLowerCap, ITweak.htop210])))

def wt210RespTweaksOf (cmd : String) : List RTweak :=
  (lookupA wt210RespTweaksTable cmd).getD []

def wt210InputTweaksOf (cmd : String) : List ITweak :=
  (lookupA wt210InputTweaksTable cmd).getD []

/-- The WT210 model data. -/
def wt210Model : Model where
  rawCmdOf := wt210RawCmdOf
  hasResponse := wt210HasResponse
  hasArgument := wt210HasArgument
  inputTweaksOf := wt210InputTweaksOf
  respTweaksOf := wt210RespTweaksOf
  errorsMap := baseErrorsMap

/-- The handler argument for a sub-command call that passes a previously
read response along (as `WT210._get_integration_state_cmd` does with the
line-filter value). -/
def optValToArg : Option Val → Arg
  | some (Val.vstr s) => Arg.astr s
  | some (Val.vlist xs) => Arg.alist xs
  | none => Arg.anone

/-- `WT210._get_integration_state_cmd`: read the line-filter setting,
write the same value back, and interpret an `Error` from the write-back
(line-filter changes are prohibited while integration is not in the
reset state) as "start or stop", success as "reset".  Despite the
source comment "Retry for a second ...", no retry is performed: the
probe runs exactly once.  Neither `get-line-filter` nor
`set-line-filter` has a handler, so both sub-calls take the raw path. -/
def wt210GetIntegrationStateCmd (fops : FloatOps) : M (Option Val) := do
  let state ← commandRaw fops wt210Model "get-line-filter" Arg.anone true
  catchYoko
    (do
      let _ ← commandRaw fops wt210Model "set-line-filter" (optValToArg state) true
      pure (some (Val.vstr "reset")))
    (pure (some (Val.vstr "start or stop")))

/-! ## Engine-state preservation

`command()` mutates the adapter-visible engine state only through the
`configure-data-items` handler; the lemmas below establish that every
other path leaves `EngSt` untouched (whether it returns or raises). -/

/-- The computation never changes the engine state (on success or on an
exception). -/
def PreservesEng {α : Type} (x : M α) : Prop :=
  ∀ (dev : Dev) (s : S), ((x dev s).2).eng = s.eng

theorem pe_pure {α : Type} (a : α) : PreservesEng (pure a : M α) :=
  fun _ _ => rfl

theorem pe_throwE {α : Type} (e : PyErr) : PreservesEng (throwE e : M α) :=
  fun _ _ => rfl

theorem pe_liftE {α : Type} (x : Except PyErr α) : PreservesEng (liftE x) :=
  fun _ _ => rfl

theorem pe_readEng : PreservesEng readEng := fun _ _ => rfl

theorem pe_takeTick : PreservesEng takeTick := fun _ _ => rfl

theorem pe_writelineRaw (raw : String) : PreservesEng (writelineRaw raw) := by
  intro dev s
  show ((writelineRaw raw dev s).2).eng = s.eng
  unfold writelineRaw
  cases dev s.pos <;> rfl

theorem pe_readlineRaw : PreservesEng readlineRaw := by
  intro dev s
  show ((readlineRaw dev s).2).eng = s.eng
  unfold readlineRaw
  cases dev s.pos <;> rfl

theorem pe_bind {α β : Type} {x : M α} {f : α → M β}
    (hx : PreservesEng x) (hf : ∀ a, PreservesEng (f a)) :
    PreservesEng (x >>= f) := by
  intro dev s
  have h1 := hx dev s
  show ((M.bind' x f dev s).2).eng = s.eng
  unfold M.bind'
  rcases hxs : x dev s with ⟨r, s1⟩
  rw [hxs] at h1
  cases r with
  | ok a => simpa using (hf a dev s1).trans h1
  | error e => simpa using h1

theorem pe_catchTransport {α : Type} {x : M α} {h : String → M α}
    (hx : PreservesEng x) (hh : ∀ m, PreservesEng (h m)) :
    PreservesEng (catchTransport x h) := by
  intro dev s
  have h1 := hx dev s
  show ((catchTransport x h dev s).2).eng = s.eng
  unfold catchTransport
  rcases hxs : x dev s with ⟨r, s1⟩
  rw [hxs] at h1
  match r with
  | Except.ok a => simpa using h1
  | Except.error (PyErr.transport m) => simpa using (hh m dev s1).trans h1
  | Except.error (PyErr.err m) => simpa using h1
  | Except.error (PyErr.badArg c a m) => simpa using h1
  | Except.error (PyErr.badResp m) => simpa using h1
  | Except.error (PyErr.pyexc m) => simpa using h1

theorem pe_catchYoko {α : Type} {x : M α} {fb : M α}
    (hx : PreservesEng x) (hfb : PreservesEng fb) :
    PreservesEng (catchYoko x fb) := by
  intro dev s
  have h1 := hx dev s
  show ((catchYoko x fb dev s).2).eng = s.eng
  unfold catchYoko
  rcases hxs : x dev s with ⟨r, s1⟩
  rw [hxs] at h1
  match r with
  | Except.ok a => simpa using h1
  | Except.error (PyErr.err m) => simpa using (hfb dev s1).trans h1
  | Except.error (PyErr.badArg c a m) => simpa using (hfb dev s1).trans h1
  | Except.error (PyErr.badResp m) => simpa using (hfb dev s1).trans h1
  | Except.error (PyErr.transport m) => simpa using h1
  | Except.error (PyErr.pyexc m) => simpa using h1

theorem pe_foldlM {α β : Type} (f : β → α → M β) (l : List α)
    (hf : ∀ b a, PreservesEng (f b a)) :
    ∀ (init : β), PreservesEng (l.foldlM f init) := by
  induction l with
  | nil => intro init; exact pe_pure init
  | cons a rest ih =>
    intro init
    show PreservesEng ((f init a) >>= fun b => rest.foldlM f b)
    exact pe_bind (hf init a) (fun b => ih b)

theorem pe_applyRTweak (fops : FloatOps) (t : RTweak) (cmd : String) (v : Val) :
    PreservesEng (applyRTweak fops t cmd v) := by
  cases t <;> cases v <;> dsimp only [applyRTweak] <;>
    first
    | exact pe_throwE _
    | exact pe_pure _
    | (apply pe_bind (pe_liftE _); intro _; exact pe_pure _)
    | (apply pe_bind pe_takeTick; intro _
       apply pe_bind pe_readEng; intro _
       apply pe_bind (pe_liftE _); intro _
       exact pe_pure _)
    | (split
       · exact pe_pure _
       · exact pe_throwE _)
    | (apply pe_bind pe_readEng; intro eng
       split
       · apply pe_bind
         · apply pe_foldlM
           intro acc item
           split
           · exact pe_throwE _
           · split
             · exact pe_throwE _
             · exact pe_pure _
         · intro y
           apply pe_bind pe_takeTick; intro _
           apply pe_bind (pe_liftE _); intro _
           exact pe_pure _
       · apply pe_bind (pe_throwE _)
         intro y
         apply pe_bind pe_takeTick; intro _
         apply pe_bind (pe_liftE _); intro _
         exact pe_pure _)

theorem pe_applyRespTweaks (fops : FloatOps) (m : Model) (cmd : String) (v : Val) :
    PreservesEng (applyRespTweaks fops m cmd v) := by
  unfold applyRespTweaks
  apply pe_foldlM
  intro b a
  exact pe_applyRTweak fops a cmd b

theorem pe_checkErrorStatus (m : Model) (cmd : String) (arg : Arg) :
    PreservesEng (checkErrorStatus m cmd arg) := by
  unfold checkErrorStatus
  apply pe_bind
  · apply pe_catchTransport
    · exact pe_bind (pe_writelineRaw _) (fun _ => pe_readlineRaw)
    · intro _; exact pe_throwE _
  · intro response
    split
    · exact pe_throwE _
    · dsimp only
      split <;>
      · apply pe_bind
        · first | exact pe_pure _ | exact pe_throwE _
        · intro code
          dsimp only
          split
          · exact pe_pure _
          · split <;> first | (split <;> exact pe_pure _) | exact pe_pure _

theorem pe_commandRaw (fops : FloatOps) (m : Model) (cmd : String) (arg : Arg)
    (checkStatus : Bool) : PreservesEng (commandRaw fops m cmd arg checkStatus) := by
  unfold commandRaw
  apply pe_bind (pe_liftE _)
  intro argT
  dsimp only
  split <;>
  · apply pe_bind
    · first | exact pe_pure _ | exact pe_throwE _
    · intro raw0
      dsimp only
      apply pe_bind
      · apply pe_catchTransport (pe_writelineRaw _)
        intro _; exact pe_throwE _
      · intro _
        dsimp only
        split
        · apply pe_bind
          · apply pe_catchTransport pe_readlineRaw
            intro _; exact pe_throwE _
          · intro r
            apply pe_bind (pe_applyRespTweaks fops m cmd _)
            intro v
            apply pe_bind (pe_pure _)
            intro y
            split
            · apply pe_bind (pe_checkErrorStatus m cmd argT)
              intro msg'
              split
              · exact pe_throwE _
              · exact pe_pure _
            · exact pe_pure _
        · apply pe_bind (pe_pure _)
          intro y
          split
          · apply pe_bind (pe_checkErrorStatus m cmd argT)
            intro msg'
            split
            · exact pe_throwE _
            · exact pe_pure _
          · exact pe_pure _

theorem pe_waitDataUpdateCmd (fops : FloatOps) : PreservesEng (waitDataUpdateCmd fops) := by
  unfold waitDataUpdateCmd
  apply pe_bind (pe_commandRaw _ _ _ _ _)
  intro _
  exact pe_bind (pe_commandRaw _ _ _ _ _) (fun _ => pe_pure _)

theorem pe_getRangeCmd (fops : FloatOps) (cmd : String) :
    PreservesEng (getRangeCmd fops cmd) := by
  unfold getRangeCmd
  apply pe_bind (pe_commandRaw _ _ _ _ _)
  intro result
  apply pe_bind (pe_commandRaw _ _ _ _ _)
  intro auto
  split
  · split
    · exact pe_pure _
    · exact pe_throwE _
  · exact pe_pure _

theorem pe_setRangeCmd (fops : FloatOps) (cmd : String) (arg : Arg) :
    PreservesEng (setRangeCmd fops cmd arg) := by
  unfold setRangeCmd
  split
  · exact pe_bind (pe_commandRaw _ _ _ _ _) (fun _ => pe_pure _)
  · apply pe_bind (pe_commandRaw _ _ _ _ _)
    intro _
    dsimp only
    split <;>
    · apply pe_bind
      · first | exact pe_pure _ | exact pe_throwE _
      · intro lo
        dsimp only
        split <;>
        · apply pe_bind
          · first | exact pe_pure _ | exact pe_throwE _
          · intro hi
            dsimp only
            split
            · apply pe_bind (pe_commandRaw _ _ _ _ _)
              intro crest
              split
              · exact pe_throwE _
              · exact pe_bind (pe_commandRaw _ _ _ _ _) (fun _ => pe_pure _)
            · exact pe_bind (pe_commandRaw _ _ _ _ _) (fun _ => pe_pure _)

theorem pe_startIntegrationCmd (fops : FloatOps) (cmd : String) :
    PreservesEng (startIntegrationCmd fops cmd) := by
  unfold startIntegrationCmd
  exact pe_bind (pe_commandRaw _ _ _ _ _) (fun _ => pe_pure _)

/-- `wt310RunFunc` preserves the engine state for every handler other
than `configure-data-items` (the hypothesis lets `split` discharge that
branch). -/
theorem pe_wt310RunFunc (fops : FloatOps) (cmd : String)
    (h : cmd ≠ "configure-data-items") (arg : Arg) :
    PreservesEng (wt310RunFunc fops cmd arg) := by
  unfold wt310RunFunc
  split
  · exact pe_waitDataUpdateCmd fops
  · split
    · exact pe_getRangeCmd fops cmd
    · split
      · exact pe_setRangeCmd fops cmd arg
      · split
        · exact pe_startIntegrationCmd fops cmd
        · exact pe_pure _

/-- `YokoBase._command` (WT310) preserves the engine state for every
command other than `configure-data-items`. -/
theorem pe_wt310UnderCommand (fops : FloatOps) (cmd : String)
    (h : cmd ≠ "configure-data-items") (arg : Arg) (checkStatus useFunc : Bool) :
    PreservesEng (wt310UnderCommand fops cmd arg checkStatus useFunc) := by
  unfold wt310UnderCommand
  split
  · exact pe_wt310RunFunc fops cmd h arg
  · exact pe_commandRaw _ _ _ _ _

/-! ## Shared concrete fixtures for the claim theorems -/

/-- A device whose every read answers "0,NO ERROR" (all writes succeed,
every status check reports success). -/
def devOk : Dev := fun _ => TRes.ok "0,NO ERROR"

/-- The engine state right after adapter construction. -/
def sInit : S := {}

/-- Eleven valid data items — one more than the WT310 maximum of 10. -/
def cfgItemsEleven : List String :=
  ["V", "I", "P", "S", "Q", "Lambda", "Phi", "Fv", "Fi", "Wh", "Whp"]

/-- C1 (amended): for every command other than `configure-data-items`,
`command()` never mutates the engine-visible state (items-to-read list,
item index map, cached interval; the command tables are immutable by
construction) — in particular, when the call raises, no state change has
happened.  `configure-data-items` is the exception: its handler assigns
`_items_to_read` before validating (see the counterexample theorem). -/
theorem command_no_partial_mutation_outside_configure (fops : FloatOps)
    (cmd : String) (h : cmd ≠ "configure-data-items") (arg : Arg)
    (dev : Dev) (s : S) :
    ((wt310Command fops cmd arg dev s).2).eng = s.eng := by
  have hp : PreservesEng (wt310Command fops cmd arg) := by
    unfold wt310Command
    split
    · exact pe_throwE _
    · split
      · split
        · exact pe_throwE _
        · exact pe_wt310UnderCommand fops cmd h arg true true
      · split
        · exact pe_throwE _
        · exact pe_wt310UnderCommand fops cmd h arg true true
  exact hp dev s

/-- Witness for the amended C1 theorem at a concrete input. -/
theorem command_no_partial_mutation_witness :
    ("get-id" ≠ "configure-data-items") ∧
    ((wt310Command fops0 "get-id" Arg.anone devOk sInit).2).eng = sInit.eng :=
  ⟨by decide,
   command_no_partial_mutation_outside_configure fops0 "get-id" (by decide)
     Arg.anone devOk sInit⟩

/-- C1 counterexample: `command("configure-data-items", <11 valid items>)`
raises the "too many data items" Error, yet the engine-visible
`_items_to_read` has already been overwritten with the requested list —
the call is observable as a partial mutation, violating the claimed
guarantee.  (No transport I/O happens before the raise.) -/
theorem configure_data_items_mutates_before_raising :
    wt310Command fops0 "configure-data-items" (Arg.alist cfgItemsEleven) devOk sInit =
      (Except.error (PyErr.err "too many data items, please, specify at most 10"),
       { sInit with eng := { sInit.eng with itemsToRead := cfgItemsEleven } }) ∧
    ({ sInit with eng := { sInit.eng with itemsToRead := cfgItemsEleven } }).eng ≠ sInit.eng ∧
    ({ sInit with eng := { sInit.eng with itemsToRead := cfgItemsEleven } }).trace = sInit.trace := by
  refine ⟨by rfl, by decide, by decide⟩

/-- C6: for every name absent from the resolved command table,
`command()` raises the Error "bad command '<name>'" and performs no
transport I/O — the returned state (trace included) is exactly the input
state. -/
theorem bad_command_raises_without_io (fops : FloatOps) (cmd : String)
    (h : cmd ∉ wt310PublicNames) (arg : Arg) (dev : Dev) (s : S) :
    wt310Command fops cmd arg dev s =
      (Except.error (PyErr.err ("bad command '" ++ cmd ++ "'")), s) := by
  unfold wt310Command
  rw [if_pos]
  · rfl
  · simpa using h

/-- Witness for the C6 theorem at a concrete unknown name. -/
theorem bad_command_raises_without_io_witness :
    ("get-identification" ∉ wt310PublicNames) ∧
    wt310Command fops0 "get-identification" Arg.anone devOk sInit =
      (Except.error (PyErr.err "bad command 'get-identification'"), sInit) :=
  ⟨by decide,
   bad_command_raises_without_io fops0 "get-identification" (by decide)
     Arg.anone devOk sInit⟩

/-- A device that answers "3" to the crest-factor query (the 5th
transport primitive call in the `set-voltage-range 15` scenario) and
reports status 0 everywhere else. -/
def devCrest3 : Dev := fun n => if n = 4 then TRes.ok "3" else TRes.ok "0,NO ERROR"

/-- C2 evaluation: the voltage-range half of the claim fails on the code
because the `set-voltage-range` choices tuple omits "auto" (unlike the
current one):
(1) `command("set-voltage-range", "auto")` raises `ErrorBadArgument` at
client-side verification, before the handler's auto branch can run and
with no state change;
(2) the lowest declared voltage range "7.5" is forwarded to the device
with NO crest-factor check (the crest query `:INP:CFAC?` is never
written, because the guard tests `choices[1]` and `choices[-1]`, i.e.
"15" and "600");
(3) it is "15" — the second-lowest value — that triggers the crest
error when the crest factor is "3". -/
theorem set_voltage_range_auto_rejected :
    (wt310Command fops0 "set-voltage-range" (Arg.astr "auto") devOk sInit =
      (Except.error (PyErr.badArg (some "set-voltage-range") (some "auto")
        "unacceptable argument 'auto' for command 'set-voltage-range'"), sInit)) ∧
    ((wt310Command fops0 "set-voltage-range" (Arg.astr "7.5") devOk sInit).1 =
      Except.ok none) ∧
    (((wt310Command fops0 "set-voltage-range" (Arg.astr "7.5") devOk sInit).2).trace.countP
      (fun e => e = Ev.wr ":INP:CFAC?") = 0) ∧
    ((wt310Command fops0 "set-voltage-range" (Arg.astr "15") devCrest3 sInit).1 =
      Except.error (PyErr.err
        "voltage range 15 is only available when crest factor is 6, but currently it is 3")) := by
  refine ⟨by rfl, by rfl, by rfl, by rfl⟩

/-- A demonstration errors map whose resolver treats every code-100
error as a non-error (returns null). -/
def errMapNull : Model :=
  { wt310Model with errorsMap := fun c =>
      if c = 100 then some (ErrEntry.efunc (fun _ _ _ _ => none)) else none }

/-- A demonstration errors map whose code-100 resolver returns the
replacement message "boom". -/
def errMapBoom : Model :=
  { wt310Model with errorsMap := fun c =>
      if c = 100 then some (ErrEntry.efunc (fun _ _ _ _ => some "boom")) else none }

/-- A demonstration errors map whose code-100 resolver returns the empty
string — per the data-model contract (and the code's own comment) the
raw device text should then become the error message. -/
def errMapEmpty : Model :=
  { wt310Model with errorsMap := fun c =>
      if c = 100 then some (ErrEntry.efunc (fun _ _ _ _ => some "")) else none }

/-- A device whose status query answers "100,oops". -/
def devStatus100 : Dev := fun _ => TRes.ok "100,oops"

/-- C5 evaluation of `_check_error_status` with a resolver-mapped
nonzero code:
(1) a resolver returning null yields no error;
(2) a resolver returning the non-empty string "boom" makes that string
appear verbatim in the raised-Error message;
(3) BUG: a resolver returning the empty string is swallowed by the
`if not msg: return None` truthiness test (the `if msg == "":` branch
that would substitute the raw device text "100,oops" is dead code), so
no error is raised at all — the claim says the raw device text should
be used as the message. -/
theorem error_status_resolver_resolution :
    ((checkErrorStatus errMapNull "clear" Arg.anone devStatus100 sInit).1 =
      Except.ok none) ∧
    ((checkErrorStatus errMapBoom "clear" Arg.anone devStatus100 sInit).1 =
      Except.ok (some "command 'clear' failed:\nboom")) ∧
    (strHas "command 'clear' failed:\nboom" "boom" = true) ∧
    ((checkErrorStatus errMapEmpty "clear" Arg.anone devStatus100 sInit).1 =
      Except.ok none) := by
  refine ⟨by rfl, by rfl, by decide, by rfl⟩

/-- A WT210 device in a non-reset integration state: the line filter
reads back "1", the status check after the write-back probe reports
error 813 (changing the line filter is prohibited during integration),
everything else succeeds. -/
def dev210Integrating : Dev := fun n =>
  if n = 1 then TRes.ok "1"
  else if n = 6 then TRes.ok "813,\"INTEG: setting conflict\""
  else TRes.ok "0,NO ERROR"

/-- A WT210 device in the reset state: the line filter reads back "0"
and every status check reports success. -/
def dev210Reset : Dev := fun n =>
  if n = 1 then TRes.ok "0" else TRes.ok "0,NO ERROR"

/-- C9 evaluation of the WT210 emulated `get-integration-state`:
(1) when the write-back probe is rejected by the device it returns
"start or stop", after exactly ONE `get-line-filter` wire query and ONE
`set-line-filter` write — no retry happens (the source comment
"Retry for a second ..." notwithstanding);
(2) when the write-back succeeds it returns "reset". -/
theorem wt210_integration_state_probe :
    (wt210GetIntegrationStateCmd fops0 dev210Integrating sInit =
      (Except.ok (some (Val.vstr "start or stop")),
       { sInit with
         pos := 7
         trace := [Ev.wr ":CONF:LFILT?", Ev.rd, Ev.wr ":STAT:ERR?", Ev.rd,
                   Ev.wr ":CONF:LFILT on", Ev.wr ":STAT:ERR?", Ev.rd] })) ∧
    (((wt210GetIntegrationStateCmd fops0 dev210Integrating sInit).2).trace.countP
      (fun e => e = Ev.wr ":CONF:LFILT on") = 1) ∧
    (((wt210GetIntegrationStateCmd fops0 dev210Integrating sInit).2).trace.countP
      (fun e => e = Ev.wr ":CONF:LFILT?") = 1) ∧
    ((wt210GetIntegrationStateCmd fops0 dev210Reset sInit).1 =
      Except.ok (some (Val.vstr "reset"))) := by
  refine ⟨by rfl, by rfl, by rfl, by rfl⟩

/-- The error text produced by a failed integration state check (`""`
for a passing check). -/
def stateCheckErr (cmd st : String) : String :=
  match runStateCheck cmd st with
  | Except.ok _ => ""
  | Except.error e => e

set_option maxRecDepth 4000 in
/-- C4: over the integration states {start, stop, reset, timeup, error},
`start-integration` passes the state check exactly from {reset, stop},
`stop-integration` exactly from {start}, `reset-integration` exactly
from {reset, stop, timeup, error}; every disallowed transition raises an
Error whose message cites the current state, the requested command and
each allowed source state; in particular `start-integration` attempted
while already in `start` raises such an Error. -/
theorem integration_transition_preconditions :
    (∀ st ∈ integrationStates,
      ((runStateCheck "start-integration" st = Except.ok ()) ↔ st ∈ ["reset", "stop"]) ∧
      ((runStateCheck "stop-integration" st = Except.ok ()) ↔ st ∈ ["start"]) ∧
      ((runStateCheck "reset-integration" st = Except.ok ()) ↔
        st ∈ ["reset", "stop", "timeup", "error"])) ∧
    (∀ st ∈ integrationStates,
      ∀ cmd ∈ ["start-integration", "stop-integration", "reset-integration"],
        st ∉ (lookupA wt310StateChecks cmd).getD [] →
          strHas (stateCheckErr cmd st) st = true ∧
          strHas (stateCheckErr cmd st) cmd = true ∧
          ∀ a ∈ (lookupA wt310StateChecks cmd).getD [],
            strHas (stateCheckErr cmd st) a = true) ∧
    (runStateCheck "start-integration" "start" =
      Except.error ("current integration state is \"start\", but \"start-integration\" " ++
        "can only be executed in the following state(s): reset, stop")) := by
  refine ⟨by decide, by decide, by rfl⟩

/-- Witness for the C4 theorem: instantiate the bounded quantifiers at
`start-integration` attempted from the `start` state. -/
theorem integration_transition_preconditions_witness :
    ¬(runStateCheck "start-integration" "start" = Except.ok ()) ∧
    strHas (stateCheckErr "start-integration" "start") "start-integration" = true := by
  have h := integration_transition_preconditions
  constructor
  · intro hok
    have h1 := (h.1 "start" (by decide)).1.mp hok
    exact absurd h1 (by decide)
  · exact ((h.2.1 "start" (by decide) "start-integration" (by decide) (by decide)).2.1)

/-- Substring containment at the character-list level. -/
def strContainsSub (hay needle : String) : Prop :=
  ∃ l r : List Char, hay.data = l ++ needle.data ++ r

/-- C8: transport construction tries USBTMC first; a wrong-device-class
failure (the class-asserting ioctl reports ENOTTY) falls through to the
serial transport; a missing device is a `_BadInput` and is fatal
immediately, with the serial transport never attempted; and when both
transports fail with an `Error`, the aggregate `TransportError` message
names each attempted transport together with its failure reason. -/
theorem transport_autoselection :
    (∀ env : DevEnv,
      env.devExists = true → env.statOk = true → env.isChr = true →
      env.usbOpenOk = true → env.ioctlOut = IoctlOut.enotty →
      serialNew env = CtorRes.success "serial" →
      transportNew env = (CtorRes.success "serial", ["usbtmc", "serial"])) ∧
    (∀ env : DevEnv, env.devExists = false →
      transportNew env =
        (CtorRes.badInput ("device node '" ++ env.devnode ++ "' does not exist"),
         ["usbtmc"])) ∧
    (∀ (env : DevEnv) (m1 m2 : String),
      usbtmcNew env = CtorRes.cerr m1 → serialNew env = CtorRes.cerr m2 →
      ∃ msg, transportNew env = (CtorRes.cerr msg, ["usbtmc", "serial"]) ∧
        strContainsSub msg ("usbtmc: " ++ m1) ∧
        strContainsSub msg ("serial: " ++ m2)) := by
  refine ⟨?_, ?_, ?_⟩
  · intro env h1 h2 h3 h4 h5 hs
    simp [transportNew, usbtmcNew, transportBaseInit, h1, h2, h3, h4, h5, hs]
  · intro env h1
    simp [transportNew, usbtmcNew, transportBaseInit, h1]
  · intro env m1 m2 hu hs
    refine ⟨aggregateMsg env.devnode [("usbtmc", m1), ("serial", m2)], ?_, ?_, ?_⟩
    · unfold transportNew
      rw [hu, hs]
    · refine ⟨("unknown type of the device '" ++ env.devnode ++
        "'. Here is the log of all the attempts to recognize the device type." ++
        "\n * ").data, ("\n * serial: " ++ m2).data, ?_⟩
      simp [aggregateMsg, List.append_assoc]
    · refine ⟨("unknown type of the device '" ++ env.devnode ++
        "'. Here is the log of all the attempts to recognize the device type." ++
        "\n * usbtmc: " ++ m1 ++ "\n * ").data, ([] : List Char), ?_⟩
      simp [aggregateMsg, List.append_assoc]

/-- A concrete environment for the C8 witness: the device node exists
and is a character device, but the USBTMC ioctl reports ENOTTY and the
serial port fails to open. -/
def envDemo : DevEnv where
  devnode := "/dev/usbtmc0"
  devExists := true
  statOk := true
  statErr := ""
  isChr := true
  usbOpenOk := true
  usbOpenErr := ""
  ioctlOut := IoctlOut.enotty
  serialInitOk := true
  serialInitErr := ""
  baudrate := none
  serialOpenOk := true
  serialOpenErr := ""

/-- Witness for the C8 theorem: the class-mismatch fallback, the fatal
missing-device case, and the aggregate error, each at a concrete
environment. -/
theorem transport_autoselection_witness :
    transportNew envDemo = (CtorRes.success "serial", ["usbtmc", "serial"]) ∧
    transportNew { envDemo with devExists := false } =
      (CtorRes.badInput "device node '/dev/usbtmc0' does not exist", ["usbtmc"]) ∧
    ∃ msg,
      transportNew { envDemo with serialOpenOk := false, serialOpenErr := "no carrier" } =
        (CtorRes.cerr msg, ["usbtmc", "serial"]) ∧
      strContainsSub msg ("usbtmc: " ++ "'/dev/usbtmc0' is not a usbtmc device") ∧
      strContainsSub msg ("serial: " ++
        "cannot initialize the serial device '/dev/usbtmc0':\nno carrier") := by
  refine ⟨?_, ?_, ?_⟩
  · exact transport_autoselection.1 envDemo rfl rfl rfl rfl rfl (by rfl)
  · exact transport_autoselection.2.1 { envDemo with devExists := false } rfl
  · exact transport_autoselection.2.2 _ _ _ (by rfl) (by rfl)

/-! ## Data-item pipeline lemmas (C3) -/

theorem lookupA_append_some {l : List (String × Nat)} {x : String} {i : Nat}
    (h : lookupA l x = some i) (e : String × Nat) :
    lookupA (l ++ [e]) x = some i := by
  induction l with
  | nil => simp [lookupA] at h
  | cons p rest ih =>
    obtain ⟨k', v'⟩ := p
    rw [List.cons_append]
    simp only [lookupA] at h ⊢
    by_cases hk : k' = x
    · simpa [hk] using h
    · rw [if_neg hk] at h ⊢
      exact ih h

theorem lookupA_append_none {l : List (String × Nat)} {x : String}
    (h : lookupA l x = none) (k : String) (v : Nat) :
    lookupA (l ++ [(k, v)]) x = if k = x then some v else none := by
  induction l with
  | nil => simp [lookupA]
  | cons p rest ih =>
    obtain ⟨k', v'⟩ := p
    rw [List.cons_append]
    simp only [lookupA] at h ⊢
    by_cases hk : k' = x
    · rw [if_pos hk] at h
      exact absurd h (by simp)
    · rw [if_neg hk] at h ⊢
      exact ih h

/-- The invariant maintained by the `_prepare_data_items_to_read` loop:
the index map points each recorded item at its position in the fetch
list, the fetch list has no duplicates and no virtual items, and the map
and the list record exactly the same items. -/
def PrepInv (res : List String) (idxs : List (String × Nat)) : Prop :=
  (∀ x i, lookupA idxs x = some i → res.get? i = some x) ∧
  res.Nodup ∧
  (∀ x, (lookupA idxs x).isSome ↔ x ∈ res) ∧
  (∀ x ∈ res, vdataItemNames.contains x = false)

/-- One induction pass over `prepareGo`: the invariant is preserved,
existing index entries keep their values, and afterwards every
substituted non-virtual requested item is recorded in the map. -/
theorem prepareGo_spec :
    ∀ (items res : List String) (idxs : List (String × Nat)),
      PrepInv res idxs →
      PrepInv (prepareGo items res idxs res.length).1 (prepareGo items res idxs res.length).2 ∧
      (∀ x i, lookupA idxs x = some i →
        lookupA (prepareGo items res idxs res.length).2 x = some i) ∧
      (∀ item ∈ items,
        vdataItemNames.contains (if item = "J" then "P" else item) = false →
        (lookupA (prepareGo items res idxs res.length).2
          (if item = "J" then "P" else item)).isSome) := by
  intro items
  induction items with
  | nil =>
    intro res idxs hinv
    simp only [prepareGo]
    exact ⟨hinv, fun x i h => h, by intro item hmem; simp at hmem⟩
  | cons item rest ih =>
    intro res idxs hinv
    obtain ⟨hget, hnd, hiff, hnv⟩ := hinv
    simp only [prepareGo]
    by_cases hg : (!vdataItemNames.contains (if item = "J" then "P" else item) &&
        (lookupA idxs (if item = "J" then "P" else item)).isNone) = true
    · -- the item is new and physical: it gets appended
      simp only [hg, if_true]
      obtain ⟨hg1, hg2⟩ := Bool.and_eq_true_iff.mp hg
      have hvd : vdataItemNames.contains (if item = "J" then "P" else item) = false := by
        simpa using hg1
      have hnone : lookupA idxs (if item = "J" then "P" else item) = none := by
        simpa [Option.isNone_iff_eq_none] using hg2
      have hnotmem : (if item = "J" then "P" else item) ∉ res := by
        intro hm
        have hs := (hiff _).mpr hm
        rw [hnone] at hs
        simp at hs
      have hinv' : PrepInv (res ++ [if item = "J" then "P" else item])
          (idxs ++ [(if item = "J" then "P" else item, res.length)]) := by
        refine ⟨?_, ?_, ?_, ?_⟩
        · intro x i h
          rcases ho : lookupA idxs x with _ | j
          · rw [lookupA_append_none ho] at h
            by_cases he : (if item = "J" then "P" else item) = x
            · rw [if_pos he] at h
              have hi : res.length = i := Option.some.inj h
              subst hi
              rw [← he]
              exact List.get?_concat_length res _
            · rw [if_neg he] at h
              exact absurd h (by simp)
          · rw [lookupA_append_some ho] at h
            have hj : j = i := Option.some.inj h
            subst hj
            have hb := hget x j ho
            have hlt : j < res.length := (List.get?_eq_some.mp hb).1
            rw [List.get?_append hlt]
            exact hb
        · simp [List.nodup_append, hnd, hnotmem]
        · intro x
          constructor
          · intro hs
            rcases ho : lookupA idxs x with _ | j
            · rw [lookupA_append_none ho] at hs
              by_cases he : (if item = "J" then "P" else item) = x
              · rw [← he]
                simp
              · rw [if_neg he] at hs
                simp at hs
            · have hm := (hiff x).mp (by rw [ho]; simp)
              exact List.mem_append.mpr (Or.inl hm)
          · intro hm
            rcases List.mem_append.mp hm with hm | hm
            · have hs := (hiff x).mpr hm
              rcases ho : lookupA idxs x with _ | j
              · rw [ho] at hs; simp at hs
              · rw [lookupA_append_some ho]; simp
            · have he : x = (if item = "J" then "P" else item) := by simpa using hm
              subst he
              rw [lookupA_append_none hnone, if_pos rfl]
              simp
        · intro x hm
          rcases List.mem_append.mp hm with hm | hm
          · exact hnv x hm
          · have he : x = (if item = "J" then "P" else item) := by simpa using hm
            subst he
            exact hvd
      have hlen : (res ++ [if item = "J" then "P" else item]).length = res.length + 1 := by
        simp
      have hrec := ih (res ++ [if item = "J" then "P" else item])
        (idxs ++ [(if item = "J" then "P" else item, res.length)]) hinv'
      rw [hlen] at hrec
      obtain ⟨ha, hb, hc⟩ := hrec
      refine ⟨ha, ?_, ?_⟩
      · intro x i h
        exact hb x i (lookupA_append_some h _)
      · intro item2 hmem hvd2
        rcases List.mem_cons.mp hmem with he | hm
        · subst he
          apply Option.isSome_iff_exists.mpr
          have hl : lookupA (idxs ++ [(if item2 = "J" then "P" else item2, res.length)])
              (if item2 = "J" then "P" else item2) = some res.length := by
            rw [lookupA_append_none hnone, if_pos rfl]
          exact ⟨res.length, hb _ res.length hl⟩
        · exact hc item2 hm hvd2
    · -- the item is virtual or already recorded: nothing changes
      simp only [hg, if_false]
      obtain ⟨ha, hb, hc⟩ := ih res idxs ⟨hget, hnd, hiff, hnv⟩
      refine ⟨ha, hb, ?_⟩
      intro item2 hmem hvd2
      rcases List.mem_cons.mp hmem with he | hm
      · subst he
        have hsome : (lookupA idxs (if item2 = "J" then "P" else item2)).isSome := by
          by_contra hns
          apply hg
          have hno : lookupA idxs (if item2 = "J" then "P" else item2) = none := by
            rcases o : lookupA idxs (if item2 = "J" then "P" else item2) with _ | j
            · rfl
            · rw [o] at hns; simp at hns
          rw [hvd2, hno]
          rfl
        rcases Option.isSome_iff_exists.mp hsome with ⟨j, hj⟩
        exact Option.isSome_iff_exists.mpr ⟨j, hb _ j hj⟩
      · exact hc item2 hm hvd2

/-- The value `read-data` produces for one requested item, as a function
of the item name alone (given the index map, the cached interval, the
timestamp of the call and the normalized device response).  This is the
loop body of `YokoBase._get_data_tweak` expressed non-monadically; the
main C3 theorem shows the tweak returns exactly the `List.map` of this
function over the requested items. -/
def itemValue (fops : FloatOps) (idxs : List (String × Nat)) (ivl ts : String)
    (resp : List String) (item : String) : String :=
  if !(vdataItemNames.contains item) then
    (resp.get? ((lookupA idxs item).getD 0)).getD ""
  else if item = "T" then ts
  else if item = "J" then
    fops.mulIntervalStr ((resp.get? ((lookupA idxs "P").getD 0)).getD "") ivl
  else ""

theorem getDataTweakGo_spec (fops : FloatOps) (eng : EngSt)
    (idxs : List (String × Nat)) (ivl ts : String) (resp : List String)
    (heng1 : eng.itemIndexes = some idxs) (heng2 : eng.interval = some ivl) :
    ∀ (l acc : List String),
      (∀ item ∈ l,
        (vdataItemNames.contains item = false →
          ∃ i, lookupA idxs item = some i ∧ i < resp.length) ∧
        (item = "J" → ∃ i, lookupA idxs "P" = some i ∧ i < resp.length)) →
      getDataTweakBase.go fops eng ts resp l acc =
        Except.ok (acc ++ l.map (itemValue fops idxs ivl ts resp)) := by
  intro l
  induction l with
  | nil =>
    intro acc hyp
    simp [getDataTweakBase.go]
  | cons item rest ih =>
    intro acc hyp
    obtain ⟨hphys, hJv⟩ := hyp item (List.mem_cons_self item rest)
    have hrest := fun it hm => hyp it (List.mem_cons_of_mem item hm)
    unfold getDataTweakBase.go
    by_cases hc : (!vdataItemNames.contains item) = true
    · -- a physical item: `response[self._item_indexes[item]]`
      obtain ⟨i, hi, hlt⟩ := hphys (by simpa using hc)
      rcases hv : resp.get? i with _ | v
      · exact absurd (List.get?_eq_none.mp hv) (by omega)
      · rw [if_pos hc, heng1]
        dsimp only
        rw [hi]
        dsimp only
        rw [hv]
        dsimp only
        rw [ih (acc ++ [v]) hrest]
        have hv2 : resp[i]? = some v := by rw [← List.get?_eq_getElem?]; exact hv
        simp only [List.map_cons, itemValue, hc, if_true, hi]
        simp [hv, hv2, List.append_assoc]
    · have hc' : vdataItemNames.contains item = true := by
        simpa using hc
      have hTJ : item = "T" ∨ item = "J" := by
        have hm : item ∈ vdataItemNames := by simpa using hc'
        simpa [vdataItemNames] using hm
      rw [if_neg hc]
      rcases hTJ with hT | hJ'
      · subst hT
        rw [if_pos rfl]
        rw [ih (acc ++ [ts]) hrest]
        have he : itemValue fops idxs ivl ts resp "T" = ts := rfl
        simp [he, List.append_assoc]
      · subst hJ'
        obtain ⟨i, hi, hlt⟩ := hJv rfl
        rcases hv : resp.get? i with _ | v
        · exact absurd (List.get?_eq_none.mp hv) (by omega)
        · rw [if_neg (by decide), if_pos rfl, heng1]
          dsimp only
          rw [hi]
          dsimp only
          rw [hv]
          dsimp only
          rw [heng2]
          dsimp only
          rw [ih (acc ++ [fops.mulIntervalStr v ivl]) hrest]
          have hv2 : resp[i]? = some v := by rw [← List.get?_eq_getElem?]; exact hv
          have he : itemValue fops idxs ivl ts resp "J" =
              fops.mulIntervalStr ((resp.get? ((lookupA idxs "P").getD 0)).getD "") ivl := rfl
          simp [he, hi, hv, hv2, List.append_assoc]

set_option maxRecDepth 4000 in
/-- C3: for a list of supported data items of length 1..max-data-items,
with the engine state `configure-data-items` installs (the requested
list in `_items_to_read`, the index map built by
`_prepare_data_items_to_read`, the cached interval) and a normalized
device response covering the physical fetch list, the `read-data`
re-expansion returns exactly `len(items)` values, ordered as requested —
the result is the pointwise map of a per-item value function, so a
duplicated item yields the same value at both requested positions; the
physical fetch list contains no duplicates (each physical item is
fetched at most once); and the virtual item "J" puts "P" (not "J") into
the fetch list. -/
theorem configure_then_read_data_shape (fops : FloatOps) (items : List String)
    (h1 : ∀ i ∈ items, i ∈ wt310DataItemNames)
    (h2 : 1 ≤ items.length) (h3 : items.length ≤ wt310MaxDataItems)
    (ivl ts : String) (resp : List String) (eng0 : EngSt)
    (hr : resp.length = (prepareDataItemsToRead items).1.length) :
    getDataTweakBase fops
      { eng0 with
        itemsToRead := items
        itemIndexes := some (prepareDataItemsToRead items).2
        interval := some ivl } ts resp =
      Except.ok (items.map (itemValue fops (prepareDataItemsToRead items).2 ivl ts resp)) ∧
    (items.map (itemValue fops (prepareDataItemsToRead items).2 ivl ts resp)).length =
      items.length ∧
    (prepareDataItemsToRead items).1.Nodup ∧
    ("J" ∈ items →
      "P" ∈ (prepareDataItemsToRead items).1 ∧ "J" ∉ (prepareDataItemsToRead items).1) ∧
    (∀ i j : Nat, items.get? i = items.get? j →
      (items.map (itemValue fops (prepareDataItemsToRead items).2 ivl ts resp)).get? i =
      (items.map (itemValue fops (prepareDataItemsToRead items).2 ivl ts resp)).get? j) := by
  have hinv0 : PrepInv ([] : List String) ([] : List (String × Nat)) := by
    refine ⟨?_, ?_, ?_, ?_⟩
    · intro x i h; simp [lookupA] at h
    · exact List.nodup_nil
    · intro x; simp [lookupA]
    · intro x hm; simp at hm
  have hspec := prepareGo_spec items [] [] hinv0
  obtain ⟨⟨hget, hnd, hiff, hnv⟩, _hpres, hcov⟩ := hspec
  have hpr : prepareDataItemsToRead items = prepareGo items [] [] 0 := rfl
  -- the per-item preconditions of the read loop
  have hyp : ∀ item ∈ items,
      (vdataItemNames.contains item = false →
        ∃ i, lookupA (prepareDataItemsToRead items).2 item = some i ∧ i < resp.length) ∧
      (item = "J" →
        ∃ i, lookupA (prepareDataItemsToRead items).2 "P" = some i ∧ i < resp.length) := by
    intro item hm
    constructor
    · intro hvd
      have hne : (if item = "J" then "P" else item) = item := by
        by_cases hJ : item = "J"
        · subst hJ; simp [vdataItemNames] at hvd
        · rw [if_neg hJ]
      have hs := hcov item hm (by rw [hne]; exact hvd)
      rw [hne] at hs
      rcases Option.isSome_iff_exists.mp hs with ⟨i, hi⟩
      refine ⟨i, by rw [hpr]; exact hi, ?_⟩
      have hb := hget item i hi
      have hlt := (List.get?_eq_some.mp hb).1
      rw [hr, hpr]
      exact hlt
    · intro hJ
      subst hJ
      have hs := hcov "J" hm (by decide)
      rcases Option.isSome_iff_exists.mp hs with ⟨i, hi⟩
      refine ⟨i, by rw [hpr]; exact hi, ?_⟩
      have hb := hget "P" i (by simpa using hi)
      have hlt := (List.get?_eq_some.mp hb).1
      rw [hr, hpr]
      exact hlt
  refine ⟨?_, by simp, by rw [hpr]; exact hnd, ?_, ?_⟩
  · show getDataTweakBase.go fops _ ts resp items [] = _
    have := getDataTweakGo_spec fops
      { eng0 with
        itemsToRead := items
        itemIndexes := some (prepareDataItemsToRead items).2
        interval := some ivl }
      (prepareDataItemsToRead items).2 ivl ts resp rfl rfl items [] hyp
    simpa using this
  · intro hJm
    have hs := hcov "J" hJm (by decide)
    constructor
    · rw [hpr]
      exact (hiff "P").mp (by simpa using hs)
    · rw [hpr]
      intro hmem
      have := hnv "J" hmem
      simp [vdataItemNames] at this
  · intro i j hij
    rw [List.get?_map, List.get?_map, hij]

/-- Witness for the C3 theorem: six requested items (with a duplicate
"P", the virtual "T" and "J") against a three-value device response
(the physical fetch list is ["P", "I", "V"]). -/
theorem configure_then_read_data_shape_witness :
    ∃ out,
      getDataTweakBase fops0
        { itemsToRead := ["P", "I", "V", "J", "P", "T"]
          itemIndexes := some (prepareDataItemsToRead ["P", "I", "V", "J", "P", "T"]).2
          interval := some "1"
          wt210ItemsToRead := none
          wt210ItemIndexes := none } "99" ["a", "b", "c"] = Except.ok out ∧
      out.length = 6 := by
  have h := configure_then_read_data_shape fops0 ["P", "I", "V", "J", "P", "T"]
    (by decide) (by decide) (by decide) "1" "99" ["a", "b", "c"] {} (by decide)
  exact ⟨_, h.1, by rw [h.2.1]; rfl⟩

set_option maxRecDepth 8000 in
/-- C7 (amended): for every public command with a declared enumerated
choice set D that is marked has-argument, client-side verification
passes a string argument iff it is in D (and a list argument — for the
commands without a custom string-only predicate, i.e. all but
`set-math` — iff every element is in D); a failing value makes the
public `command()` raise `ErrorBadArgument` naming the offending value
and the command, before any wire I/O (the state, trace included, is
untouched).  The declared domain itself is not part of the raised
error (see the counterexample theorem). -/
theorem verification_iff_domain_membership (fops : FloatOps) (cmd : String)
    (hmem : cmd ∈ wt310PublicNames) (D : List String)
    (hD : wt310ChoicesOf cmd = some D) (hA : wt310HasArgument cmd = true) :
    (∀ v : String, (verifyArgument cmd (Arg.astr v) = Except.ok () ↔ v ∈ D)) ∧
    (cmd ≠ "set-math" → ∀ xs : List String,
      (verifyArgument cmd (Arg.alist xs) = Except.ok () ↔ ∀ x ∈ xs, x ∈ D)) ∧
    (∀ v : String, v ∉ D → ∀ (dev : Dev) (s : S),
      wt310Command fops cmd (Arg.astr v) dev s =
        (Except.error (PyErr.badArg (some cmd) (some v) (badArgMsg cmd v)), s)) := by
  have hsan : ∀ c ∈ wt310PublicNames, ((wt310ChoicesOf c).getD ["x"]) ≠ [] := by decide
  have hne : D ≠ [] := by
    have h0 := hsan cmd hmem
    rw [hD] at h0
    simpa using h0
  have hEmpty : D.isEmpty = false := by
    cases D
    · exact absurd rfl hne
    · rfl
  have hsdic : cmd ≠ "set-data-items-count" := by
    rintro rfl
    revert hmem
    decide
  -- how verification behaves on a string argument, before the custom predicate
  have hstr : ∀ v : String,
      verifyArgument cmd (Arg.astr v) =
        ((if D.contains v = true then Except.ok () else
          Except.error (PyErr.badArg (some cmd) (some v) (badArgMsg cmd v))) >>= fun _ =>
         (match wt310VerifyArgOf cmd with
          | some f =>
            match f (Arg.astr v) with
            | Except.error e => Except.error e
            | Except.ok true => Except.ok ()
            | Except.ok false =>
              Except.error (PyErr.badArg (some cmd) (some (argFormat (Arg.astr v)))
                (badArgMsg cmd (argFormat (Arg.astr v))))
          | none => Except.ok ())) := by
    intro v
    unfold verifyArgument
    rw [hD]
    dsimp only
    rw [hEmpty]
    rfl
  refine ⟨?_, ?_, ?_⟩
  · -- string argument: ok iff member
    intro v
    by_cases hsm : cmd = "set-math"
    · subst hsm
      have hDm : D = mathNames := by
        have h0 : wt310ChoicesOf "set-math" = some mathNames := by rfl
        rw [h0] at hD
        exact (Option.some.inj hD).symm
      subst hDm
      rw [hstr v]
      by_cases hv : v ∈ mathNames
      · have hct : mathNames.contains v = true := List.elem_iff.mpr hv
        have hvm : wt310VerifyMathNameStr v = true := by
          have h9 : v = "cfv" ∨ v = "cfi" ∨ v = "add" ∨ v = "sub" ∨ v = "mul" ∨
              v = "div" ∨ v = "diva" ∨ v = "divb" ∨ v = "avw" := by
            simpa [mathNames] using hv
          rcases h9 with rfl | rfl | rfl | rfl | rfl | rfl | rfl | rfl | rfl <;> decide
        simp [hct, hv, wt310VerifyArgOf, wt310VerifyMathNameA, hvm, Bind.bind, Except.bind]
      · have hct : mathNames.contains v = false := by
          rw [← Bool.not_eq_true]
          intro hb
          exact hv (List.elem_iff.mp hb)
        simp [hct, hv, Bind.bind, Except.bind]
    · have hvo : wt310VerifyArgOf cmd = none := by
        unfold wt310VerifyArgOf
        rw [if_neg hsdic, if_neg hsm]
      rw [hstr v, hvo]
      by_cases hv : v ∈ D
      · have hct : D.contains v = true := List.elem_iff.mpr hv
        simp [hct, hv, Bind.bind, Except.bind]
      · have hct : D.contains v = false := by
          rw [← Bool.not_eq_true]
          intro hb
          exact hv (List.elem_iff.mp hb)
        simp [hct, hv, Bind.bind, Except.bind]
  · -- list argument, checked element-wise
    intro hsm xs
    have hvo : wt310VerifyArgOf cmd = none := by
      unfold wt310VerifyArgOf
      rw [if_neg hsdic, if_neg hsm]
    unfold verifyArgument
    rw [hD]
    dsimp only
    rw [hEmpty, hvo]
    dsimp only
    rcases hf : xs.find? (fun x => !(D.contains x)) with _ | bad
    · have hall : ∀ x ∈ xs, x ∈ D := by
        intro x hx
        have := List.find?_eq_none.mp hf x hx
        have hct : D.contains x = true := by
          rcases hb : D.contains x
          · exact absurd (by rw [hb]; rfl) this
          · rfl
        exact List.elem_iff.mp hct
      simpa [Bind.bind, Except.bind] using hall
    · have hbadmem : bad ∈ xs := List.mem_of_find?_eq_some hf
      have hbadp := List.find?_some hf
      have hbadnot : bad ∉ D := by
        intro hm
        simp at hbadp
        exact hbadp hm
      constructor
      · intro h0
        exact absurd h0 (by simp [Bind.bind, Except.bind])
      · intro hall
        exact absurd (hall bad hbadmem) hbadnot
  · -- a bad string argument fails before any wire I/O
    intro v hv dev s
    have hct : D.contains v = false := by
      rw [← Bool.not_eq_true]
      intro hb
      exact hv (List.elem_iff.mp hb)
    have hverr : verifyArgument cmd (Arg.astr v) =
        Except.error (PyErr.badArg (some cmd) (some v) (badArgMsg cmd v)) := by
      rw [hstr v, hct]
      rfl
    have hco : wt310PublicNames.contains cmd = true := List.elem_iff.mpr hmem
    unfold wt310Command
    rw [hco, hA, hverr]
    rfl

/-- Witness for the amended C7 theorem at `set-crest-factor` (domain
{"3", "6"}): a member passes verification, and a non-member makes the
public `command()` raise `ErrorBadArgument` with the state untouched. -/
theorem verification_iff_domain_membership_witness :
    ("set-crest-factor" ∈ wt310PublicNames) ∧
    (verifyArgument "set-crest-factor" (Arg.astr "6") = Except.ok ()) ∧
    (wt310Command fops0 "set-crest-factor" (Arg.astr "4") devOk sInit =
      (Except.error (PyErr.badArg (some "set-crest-factor") (some "4")
        (badArgMsg "set-crest-factor" "4")), sInit)) := by
  have h := verification_iff_domain_membership fops0 "set-crest-factor" (by decide)
    ["3", "6"] (by rfl) (by rfl)
  exact ⟨by decide, (h.1 "6").mpr (by decide), h.2.2 "4" (by decide) devOk sInit⟩

/-- C7 counterexample: the `ErrorBadArgument` raised for an
out-of-domain value names the offending value and the command, but NOT
the expected domain — for `set-crest-factor` (domain {"3", "6"}) the
message contains neither "3" nor "6". -/
theorem badarg_error_does_not_name_domain :
    wt310ChoicesOf "set-crest-factor" = some ["3", "6"] ∧
    (wt310Command fops0 "set-crest-factor" (Arg.astr "4") devOk sInit).1 =
      Except.error (PyErr.badArg (some "set-crest-factor") (some "4")
        "unacceptable argument '4' for command 'set-crest-factor'") ∧
    strHas "unacceptable argument '4' for command 'set-crest-factor'" "3" = false ∧
    strHas "unacceptable argument '4' for command 'set-crest-factor'" "6" = false := by
  refine ⟨rfl, by rfl, by rfl, by rfl⟩

/-- C10 counterexample: `calibrate` does not start with "get-", yet its
wire template "*CAL?" ends in "?", so it is classified
has-argument = false and `command("calibrate", "x")` raises the
"accepts no arguments" Error — the error is NOT confined to get-
commands. -/
theorem accepts_no_arguments_reachable_for_calibrate :
    strStartsWith "calibrate" "get-" = false ∧
    wt310HasArgument "calibrate" = false ∧
    wt310Command fops0 "calibrate" (Arg.astr "x") devOk sInit =
      (Except.error (PyErr.err "command 'calibrate' accepts no arguments, but 'x' was provided"),
       sInit) := by
  refine ⟨by decide, by decide, by rfl⟩

set_option maxRecDepth 8000 in
/-- C10 (amended): a private-table command is classified
has-argument = false exactly when its name starts with "get-" or its
wire template ends in "?" — over the public table that is the get-
commands plus `calibrate` and `read-data`.  The argument-less
operations `start-integration`, `stop-integration`, `reset-integration`,
`factory-reset` and `clear` are therefore has-argument = true with no
declared choices and no verify predicate, so an arbitrary string
argument passes the sanity checks and execution proceeds to `_command`
(never the "accepts no arguments" error); for a command without a
handler (e.g. `clear`) the argument is appended to the wire request.
The "accepts no arguments" error is raised exactly by the
has-argument = false commands when given a non-null argument. -/
theorem has_argument_classification (fops : FloatOps) :
    (∀ cmd ∈ wt310PublicNames,
      (wt310HasArgument cmd = false ↔
        (strStartsWith cmd "get-" = true ∨ cmd = "calibrate" ∨ cmd = "read-data"))) ∧
    (∀ cmd ∈ (["start-integration", "stop-integration", "reset-integration",
        "factory-reset", "clear"] : List String),
      wt310HasArgument cmd = true ∧ wt310ChoicesOf cmd = none ∧
        (wt310VerifyArgOf cmd).isNone = true) ∧
    (∀ cmd ∈ (["start-integration", "stop-integration", "reset-integration",
        "factory-reset", "clear"] : List String),
      ∀ (a : String) (dev : Dev) (s : S),
        wt310Command fops cmd (Arg.astr a) dev s =
          wt310UnderCommand fops cmd (Arg.astr a) true true dev s) ∧
    (∀ cmd ∈ wt310PublicNames, wt310HasArgument cmd = false →
      ∀ (a : String) (dev : Dev) (s : S),
        wt310Command fops cmd (Arg.astr a) dev s =
          (Except.error (PyErr.err ("command '" ++ cmd ++ "' accepts no arguments, but '" ++
            a ++ "' was provided")), s)) ∧
    (∀ a : String,
      ((wt310Command fops "clear" (Arg.astr a) devOk sInit).2).trace.head? =
        some (Ev.wr ("\n*CLS " ++ a))) := by
  refine ⟨by decide, by decide, ?_, ?_, ?_⟩
  · intro cmd hcm a dev s
    simp only [List.mem_cons, List.mem_singleton] at hcm
    rcases hcm with rfl | rfl | rfl | rfl | rfl | h0
    · rfl
    · rfl
    · rfl
    · rfl
    · rfl
    · simp at h0
  · intro cmd hmem hfa a dev s
    have hco : wt310PublicNames.contains cmd = true := List.elem_iff.mpr hmem
    unfold wt310Command
    rw [hco, hfa]
    rfl
  · intro a
    rfl

/-- Witness for `has_argument_classification`: `factory-reset` with the
arbitrary argument "junk" proceeds to the under-command (no
"accepts no arguments" error), and `clear 0` writes `*CLS 0` on the
wire. -/
theorem has_argument_classification_witness :
    wt310Command fops0 "factory-reset" (Arg.astr "junk") devOk sInit =
      wt310UnderCommand fops0 "factory-reset" (Arg.astr "junk") true true devOk sInit ∧
    ((wt310Command fops0 "clear" (Arg.astr "0") devOk sInit).2).trace.head? =
      some (Ev.wr "\n*CLS 0") :=
  ⟨(has_argument_classification fops0).2.2.1 "factory-reset" (by decide) "junk" devOk sInit,
   (has_argument_classification fops0).2.2.2.2 "0"⟩
